import Mathlib

/-
  Verification development for the FAME processing modules
  (hatchingtriage.py, unpacme.py, extractpatool.py).

  The Python code is shallowly embedded: external HTTP/SDK calls are
  modelled by oracle records (each call site reads a field of the oracle,
  `Except PyError _` when the call can raise), Python dictionaries by
  insertion-ordered association lists, and Python exceptions by the
  `PyError` inductive.  Module methods become pure functions threading an
  explicit state; `self.add_ioc` / `self.add_tag` / `self.register_files`
  and friends append to lists in that state.
-/

/-- A Python value as it occurs in the configuration maps of a Hatching
Triage report (`config` / `credentials` / `dropper` sub-dicts): strings,
integers, or lists of strings (the shape of the `c2` entry). -/
inductive PyVal
  | str (s : String)
  | intv (n : Int)
  | list (xs : List String)
deriving DecidableEq, Repr

/-- Python truthiness for the `PyVal` shapes we model: empty string,
zero and empty list are falsy. -/
def pyTruthy : PyVal → Bool
  | .str s => !s.isEmpty
  | .intv n => n != 0
  | .list xs => !xs.isEmpty

/-- Iterating a `PyVal` as the code does with `for c2 in item['config']['c2']`.
In the reports this value is a list of strings; other shapes are outside the
modelled report schema and contribute nothing. -/
def pyIterStrs : PyVal → List String
  | .list xs => xs
  | .str _ => []
  | .intv _ => []

/-- Python exceptions, by class, as they can arise in these modules.
`moduleExecutionError` is FAME's `ModuleExecutionError`; the others are
builtin exception classes. -/
inductive PyError
  | moduleExecutionError (msg : String)
  | nameError (msg : String)
  | attributeError (msg : String)
  | keyError (msg : String)
  | valueError (msg : String)
  | indexError (msg : String)
  | other (msg : String)
deriving DecidableEq, Repr

/-- The exception class of an error — what `type(e).__name__` would show.
Two errors of the same class are the same "error kind". -/
def errClass : PyError → String
  | .moduleExecutionError _ => "ModuleExecutionError"
  | .nameError _ => "NameError"
  | .attributeError _ => "AttributeError"
  | .keyError _ => "KeyError"
  | .valueError _ => "ValueError"
  | .indexError _ => "IndexError"
  | .other _ => "Exception"

/-- The message of an error — what the code's `"\x7b\x7d".format(error)`
logging produces. -/
def pyStr : PyError → String
  | .moduleExecutionError m => m
  | .nameError m => m
  | .attributeError m => m
  | .keyError m => m
  | .valueError m => m
  | .indexError m => m
  | .other m => m

/-- An indicator of compromise as handed to `self.add_ioc(value, tags)`. -/
structure IOC where
  value : String
  tags : List String
deriving DecidableEq, Repr

/-- A Python dict with string keys, as an insertion-ordered association
list.  Dicts built by `dictOf` have at most one entry per key. -/
abbrev PyDict := List (String × PyVal)

/-- Key membership test for a dict. -/
def hasKey : PyDict → String → Bool
  | [], _ => false
  | p :: d, k => if p.1 = k then true else hasKey d k

/-- Inserting one key/value pair into a dict: an existing key keeps its
position but gets the new value, a new key is appended — exactly Python's
dict insertion-order semantics. -/
def dictInsert (d : PyDict) (k : String) (v : PyVal) : PyDict :=
  if hasKey d k then
    d.map (fun p => if p.1 = k then (k, v) else p)
  else
    d ++ [(k, v)]

/-- Building a dict from a pair sequence, later pairs overwriting earlier
ones — the semantics of Python's `dict(chain(...))`. -/
def dictOf (l : List (String × PyVal)) : PyDict :=
  l.foldl (fun d p => dictInsert d p.1 p.2) []

/-- Dict lookup: first entry with the key (dicts built by `dictOf` have
at most one entry per key). -/
def dlookup : PyDict → String → Option PyVal
  | [], _ => none
  | p :: d, k => if p.1 = k then some p.2 else dlookup d k

/-- Left-biased choice on options (the first non-`none` wins). -/
def myOr (a b : Option PyVal) : Option PyVal :=
  match a with
  | some v => some v
  | none => b

/-- The value of the last pair carrying the given key in a raw pair
sequence — the binding that survives `dict(...)` construction. -/
def lookupLast : List (String × PyVal) → String → Option PyVal
  | [], _ => none
  | p :: l, k => myOr (lookupLast l k) (if p.1 = k then some p.2 else none)

/-- Python's `str.split(sep)` for a single-character separator:
auxiliary recursion over the character list (structural, so concrete
instances reduce inside the kernel). -/
def pySplitGo (sep : Char) : List Char → List Char → List String
  | [], acc => [String.mk acc.reverse]
  | c :: cs, acc =>
    if c = sep then String.mk acc.reverse :: pySplitGo sep cs []
    else pySplitGo sep cs (c :: acc)

/-- Python's `str.split(sep)` for a single-character separator; on the
empty string it yields `[""]`, exactly like Python. -/
def pySplit (sep : Char) (s : String) : List String := pySplitGo sep s.data []

/-- Python's `str.startswith(pre)`. -/
def pyStartsWith (s pre : String) : Bool := pre.data.isPrefixOf s.data

/-- A dict is canonical when first-entry lookup and last-entry lookup
agree for every key; every dict produced by `dictOf` is canonical. -/
def Canon (d : PyDict) : Prop := ∀ k, lookupLast d k = dlookup d k

/-- First-write-wins reading of an ordered list of contributed maps: the
value of a key is the one of the first map that binds it (within a map
with duplicated pairs, its own last binding — a Python dict never has
duplicates). -/
def firstWins : List PyDict → String → Option PyVal
  | [], _ => none
  | m :: ms, k => myOr (lookupLast m k) (firstWins ms k)

/-
  The polling loop of `wait_for_analysis`, shared verbatim (up to the
  terminal status string) by hatchingtriage.py and unpacme.py:

      waited_time = 0
      while waited_time < self.wait_timeout:
          response = <status call>          # may raise
          status = response['status']
          if status == <terminal>: break
          time.sleep(self.wait_step)
          waited_time += self.wait_step
      if status != <terminal>:
          raise ModuleExecutionError('could not get report before timeout.')

  The loop is modelled with a fuel parameter chosen large enough that,
  for wait_step > 0, the fuel never runs out before the `waited_time <
  wait_timeout` condition fails.  (For wait_step <= 0 < wait_timeout the
  Python loop would not terminate unless a terminal status arrives; there
  the model's fuel exhaustion stands in for divergence and no claim
  concerns that region.)  `checks` counts status requests, `waited`
  mirrors `waited_time`, i.e. the cumulative slept seconds, `status`
  is the Python local `status` (`none` = never assigned), and `callErr`
  an exception raised by the status call itself.
-/

/-- State of the polling loop of `wait_for_analysis`. -/
structure PollOut where
  checks : Nat
  waited : Int
  status : Option String
  callErr : Option PyError
deriving DecidableEq, Repr

/-- One-step-per-fuel model of the polling `while` loop.  `check n` is
the status returned by the n-th status request (or the exception it
raises). -/
def pollLoop (check : Nat → Except PyError String) (term : String)
    (timeout step : Int) : Nat → PollOut → PollOut
  | 0, s => s
  | fuel + 1, s =>
    if s.waited < timeout then
      match check s.checks with
      | .error e => { s with checks := s.checks + 1, callErr := some e }
      | .ok st =>
        if st = term then { s with checks := s.checks + 1, status := some st }
        else
          pollLoop check term timeout step fuel
            { s with checks := s.checks + 1, status := some st,
                     waited := s.waited + step }
    else s

/-- Fuel that is sufficient for the loop whenever `step > 0`:
the loop body runs at most `ceil(timeout/step) <= timeout/step + 1`
times. -/
def pollFuel (timeout step : Int) : Nat := timeout.toNat / step.toNat + 2

/-- The initial state of the polling loop (`waited_time = 0`, `status`
not yet assigned). -/
def pollInit : PollOut := ⟨0, 0, none, none⟩

/-- The code after the loop: an exception of the status call itself
propagates unchanged; otherwise `if status != <terminal>: raise
ModuleExecutionError(...)` runs — reading `status` when the loop never
assigned it raises `NameError`. -/
def finishPoll (r : PollOut) (term : String) : Option PyError :=
  match r.callErr with
  | some e => some e
  | none =>
    match r.status with
    | none => some (.nameError "name 'status' is not defined")
    | some st =>
      if st = term then none
      else some (.moduleExecutionError "could not get report before timeout.")

/-- Full model of `wait_for_analysis`: run the loop, then evaluate the
final status comparison. -/
def wait_for_analysis (check : Nat → Except PyError String) (term : String)
    (timeout step : Int) : PollOut × Option PyError :=
  let r := pollLoop check term timeout step (pollFuel timeout step) pollInit
  (r, finishPoll r term)

namespace HatchingTriage

/-- The `analysis` section of a Hatching Triage overview report:
`family` (list of family names) and `score`, both optional. -/
structure Analysis where
  family : Option (List String)
  score : Option Int
deriving DecidableEq, Repr

/-- One entry of the report's `signatures` list (fields the code reads:
`name`, `score`, `desc`, all accessed with `.get`). -/
structure SigIn where
  name : Option String
  score : Option Int
  desc : Option String
deriving DecidableEq, Repr

/-- One signature dict as built by `extract_info` and appended to
`self.results['signatures']`: fields are only set when the source field
is truthy. -/
structure SigOut where
  name : Option String
  severity : Option Int
  description : Option String
deriving DecidableEq, Repr

/-- One sub-item of the report's `extracted` section; the code reads the
optional `config`, `credentials` and `dropper` dict-valued keys. -/
structure ExtractedItem where
  config : Option PyDict
  credentials : Option PyDict
  dropper : Option PyDict
deriving DecidableEq, Repr

/-- One entry of the report's `tasks` list (`status` and `name` are
indexed directly, so they are required fields). -/
structure TriageTask where
  status : String
  name : String
deriving DecidableEq, Repr

/-- One entry of a behavioral task report's `network.flows` list
(`proto` and `dst` are indexed directly). -/
structure NetFlow where
  proto : String
  dst : String
deriving DecidableEq, Repr

/-- The `dns_request` sub-dict of a network request (`domains` is indexed
directly; its first element is read). -/
structure DnsRequest where
  domains : List String
deriving DecidableEq, Repr

/-- The `http_request` sub-dict of a network request (`url` is indexed
directly). -/
structure HttpRequest where
  url : String
deriving DecidableEq, Repr

/-- One entry of `network.requests`: optional `dns_request` and
`http_request` sub-dicts. -/
structure NetRequest where
  dns_request : Option DnsRequest
  http_request : Option HttpRequest
deriving DecidableEq, Repr

/-- The `network` section of a behavioral task report. -/
structure Network where
  flows : Option (List NetFlow)
  requests : Option (List NetRequest)
deriving DecidableEq, Repr

/-- One entry of a task report's `dumped` list (`kind` and `name` are
indexed directly). -/
structure DumpedItem where
  kind : String
  name : String
deriving DecidableEq, Repr

/-- A per-task behavioral report, as fetched by
`triage_client.task_report(...)`: the fields `extract_info` reads. -/
structure TaskReport where
  network : Option Network
  dumped : Option (List DumpedItem)
deriving DecidableEq, Repr

/-- A Hatching Triage overview report: the four sections `extract_info`
reads, each optional (`report.get(...)`). -/
structure Report where
  analysis : Option Analysis
  signatures : Option (List SigIn)
  extracted : Option (List ExtractedItem)
  tasks : Option (List TriageTask)
deriving DecidableEq, Repr

/-- Everything `extract_info` and its callees write: the `self.results`
keys (`score`, `signatures`; `none` = key never set), and the sinks
`add_probable_name`, `add_tag`, `add_ioc`, `add_extraction`,
`register_files` (kind, file name) and `add_extracted_file`. -/
structure Findings where
  score : Option Int
  signatures : Option (List SigOut)
  probable_names : List String
  tags : List String
  iocs : List IOC
  extractions : List (String × PyDict)
  registered : List (String × String)
  extracted_files : List String
deriving DecidableEq, Repr

/-- The findings state before `extract_info` runs: nothing written. -/
def emptyFindings : Findings := ⟨none, none, [], [], [], [], [], []⟩

/-- Module configuration attributes read by the code paths we model
(`api_endpoint` and `apikey` only feed the HTTP client and are absorbed
into the oracle). -/
structure Cfg where
  web_endpoint : String
  wait_timeout : Int
  wait_step : Int
  check_existing : Bool
  collect_dropfiles : Bool
  collect_pcaps : Bool
  collect_memdumps : Bool

/-- The remote service, as an oracle: one field per distinct external
call the module makes.  `searchCall` is the `triage_client.search`
paginator: the ids it yields, with `searchIterErr` an exception raised
while iterating it (after the listed items).  `statuses n` is the status
returned by the n-th poll. -/
structure Oracle where
  fileSha256 : String
  searchCall : Except PyError (List String)
  searchIterErr : Option PyError
  submitFile : Except PyError String
  submitUrl : Except PyError String
  statuses : Nat → String
  overview : Except PyError Report
  taskReport : String → String → Except PyError TaskReport
  sampleTaskFile : String → String → Except PyError Unit
  mime : String → String → String

/-- The comma-joined probable-name string: `",".join(report['analysis']['family'])`
when the `analysis` section and a truthy `family` list are present, the
initial `probable_name = ""` otherwise. -/
def probableNameOf (r : Report) : String :=
  match r.analysis with
  | none => ""
  | some a =>
    match a.family with
    | none => ""
    | some fs => if fs.isEmpty then "" else String.intercalate "," fs

/-- An optional string passed through Python truthiness: kept only when
present and non-empty (`if item.get('name'): ...`). -/
def optStr : Option String → Option String
  | none => none
  | some s => if s.isEmpty then none else some s

/-- An optional integer passed through Python truthiness: kept only when
present and non-zero (`if item.get('score'): ...`). -/
def optInt : Option Int → Option Int
  | none => none
  | some n => if n = 0 then none else some n

/-- Mapping one `signatures` entry to the dict appended to
`self.results['signatures']`: each field set only when truthy. -/
def mapSig (i : SigIn) : SigOut := ⟨optStr i.name, optInt i.score, optStr i.desc⟩

/-- The `c2` values contributed by one `extracted` sub-item: present when
the item has a truthy `config` whose `c2` entry is truthy
(`if item['config'].get('c2'): for c2 in item['config']['c2']`). -/
def itemC2s (it : ExtractedItem) : List String :=
  match it.config with
  | none => []
  | some l =>
    if l.isEmpty then []
    else
      match dlookup l "c2" with
      | none => []
      | some v => if pyTruthy v then pyIterStrs v else []

/-- One `dict(chain(config.items(), configuration.items()))` step: the
new map's pairs come first, so on a shared key the pairs of the already
accumulated `configuration` — listed last — win.  Applied only when the
section is present and truthy, as in the code. -/
def mergeStep (m : Option PyDict) (acc : PyDict) : PyDict :=
  match m with
  | none => acc
  | some l => if l.isEmpty then acc else dictOf (l ++ acc)

/-- Processing one `extracted` sub-item: merge `config`, emit its `c2`
IOCs (tagged `c2` plus one tag per comma-separated probable-name token),
then merge `credentials` and `dropper`. -/
def processExtractedItem (pn : String) (acc : PyDict × List IOC)
    (it : ExtractedItem) : PyDict × List IOC :=
  let cfg1 := mergeStep it.config acc.1
  let iocs1 := acc.2 ++ (itemC2s it).map (fun v => ⟨v, "c2" :: pySplit ',' pn⟩)
  let cfg2 := mergeStep it.credentials cfg1
  let cfg3 := mergeStep it.dropper cfg2
  (cfg3, iocs1)

/-- The whole `for item in report['extracted']` loop: the final merged
`configuration` dict and the `c2` IOCs emitted on the way. -/
def processExtracted (pn : String) (items : List ExtractedItem) :
    PyDict × List IOC :=
  items.foldl (processExtractedItem pn) ([], [])

/-- The maps each `extracted` sub-item contributes to the merge, in
program order: `config`, then `credentials`, then `dropper` (an absent
section contributes the empty map, exactly like a skipped merge). -/
def contributedMaps (items : List ExtractedItem) : List PyDict :=
  items.flatMap (fun it => [it.config.getD [], it.credentials.getD [], it.dropper.getD []])

/-- Exception-style sequencing: run the continuation only when the
previous step did not raise. -/
def andThen (a : Findings × Option PyError) (f : Findings → Findings × Option PyError) :
    Findings × Option PyError :=
  match a.2 with
  | some _ => a
  | none => f a.1

/-- One iteration of the network-flow loop: TCP flows yield an IOC of
the destination IP tagged with port and protocol; `ip, port =
flow['dst'].split(":")` raises `ValueError` unless the split has exactly
two parts. -/
def flowStep (flow : NetFlow) (st : Findings) : Findings × Option PyError :=
  if flow.proto = "tcp" then
    match pySplit ':' flow.dst with
    | [ip, port] =>
      ({ st with iocs := st.iocs ++ [⟨ip, ["port:" ++ port, "tcp"]⟩] }, none)
    | _ => (st, some (.valueError "values to unpack from flow dst"))
  else (st, none)

/-- The network-flow loop of a behavioral task, stopping at the first
exception while keeping the IOCs emitted before it. -/
def processFlows (fls : List NetFlow) (st : Findings) :
    Findings × Option PyError :=
  fls.foldl (fun acc flow => andThen acc (flowStep flow)) (st, none)

/-- The `dns_request` part of one network-request iteration: a truthy
`dns_request` yields an IOC of `domains[0]`, raising `IndexError` on an
empty domain list. -/
def dnsStep (item : NetRequest) (st : Findings) : Findings × Option PyError :=
  match item.dns_request with
  | none => (st, none)
  | some d =>
    match d.domains.head? with
    | some dom => ({ st with iocs := st.iocs ++ [⟨dom, ["dns_request"]⟩] }, none)
    | none => (st, some (.indexError "list index out of range"))

/-- The `http_request` part of one network-request iteration: a truthy
`http_request` yields an IOC of its `url`. -/
def httpStep (item : NetRequest) (st : Findings) : Findings :=
  match item.http_request with
  | none => st
  | some h => { st with iocs := st.iocs ++ [⟨h.url, ["http_request"]⟩] }

/-- One iteration of the network-request loop: the DNS part, then the
HTTP part. -/
def requestStep (item : NetRequest) (st : Findings) : Findings × Option PyError :=
  andThen (dnsStep item st) (fun s1 => (httpStep item s1, none))

/-- The network-request loop of a behavioral task. -/
def processRequests (reqs : List NetRequest) (st : Findings) :
    Findings × Option PyError :=
  reqs.foldl (fun acc item => andThen acc (requestStep item)) (st, none)

/-- The `network` section of one behavioral task: flows (when truthy),
then requests (when truthy). -/
def netPhase (tr : TaskReport) (st : Findings) : Findings × Option PyError :=
  match tr.network with
  | none => (st, none)
  | some nw =>
    let fl : Findings × Option PyError :=
      match nw.flows with
      | none => (st, none)
      | some fls => if fls.isEmpty then (st, none) else processFlows fls st
    andThen fl (fun s1 =>
      match nw.requests with
      | none => (s1, none)
      | some reqs => if reqs.isEmpty then (s1, none) else processRequests reqs s1)

/-- One iteration of the `collect_dropfiles` loop: a dumped item of kind
`martian` is downloaded, registered as a `dropped_file`, and registered
for further processing when MIME sniffing says `application/x-dosexec`. -/
def dropStep (o : Oracle) (taskName : String) (it : DumpedItem) (st : Findings) :
    Findings × Option PyError :=
  if it.kind = "martian" then
    match o.sampleTaskFile taskName it.name with
    | .error e => (st, some e)
    | .ok _ =>
      let st1 := { st with
        registered := st.registered ++ [("dropped_file", "triage_dropped_file")] }
      if o.mime taskName it.name = "application/x-dosexec" then
        ({ st1 with extracted_files := st1.extracted_files ++ ["triage_dropped_file"] },
          none)
      else (st1, none)
  else (st, none)

/-- The `collect_dropfiles` loop over the (truthy) `dumped` list. -/
def processDrops (o : Oracle) (taskName : String) (tr : TaskReport)
    (st : Findings) : Findings × Option PyError :=
  match tr.dumped with
  | none => (st, none)
  | some items =>
    if items.isEmpty then (st, none)
    else items.foldl (fun acc it => andThen acc (dropStep o taskName it)) (st, none)

/-- One iteration of the `collect_memdumps` loop: dumped items of kind
`mapping` or `region` are downloaded and registered as `memory_dump`s. -/
def memStep (o : Oracle) (taskName : String) (it : DumpedItem) (st : Findings) :
    Findings × Option PyError :=
  if it.kind = "mapping" ∨ it.kind = "region" then
    match o.sampleTaskFile taskName it.name with
    | .error e => (st, some e)
    | .ok _ =>
      ({ st with registered := st.registered ++ [("memory_dump", "triage_memory_dump")] },
        none)
  else (st, none)

/-- The `collect_memdumps` loop over the (truthy) `dumped` list. -/
def processMems (o : Oracle) (taskName : String) (tr : TaskReport)
    (st : Findings) : Findings × Option PyError :=
  match tr.dumped with
  | none => (st, none)
  | some items =>
    if items.isEmpty then (st, none)
    else items.foldl (fun acc it => andThen acc (memStep o taskName it)) (st, none)

/-- The `collect_pcaps` block: download `dump.pcap` and register it. -/
def processPcap (o : Oracle) (taskName : String) (st : Findings) :
    Findings × Option PyError :=
  match o.sampleTaskFile taskName "dump.pcap" with
  | .error e => (st, some e)
  | .ok _ =>
    ({ st with registered := st.registered ++ [("pcap", "triage_pcap")] }, none)

/-- Processing one task whose status is `reported` and whose name starts
with `behavioral`: fetch its task report, then flows and requests, then
the three flag-gated collection loops, stopping at the first exception
while keeping everything emitted before it. -/
def processBehavioral (o : Oracle) (cfg : Cfg) (tid : String)
    (taskName : String) (st : Findings) : Findings × Option PyError :=
  match o.taskReport tid taskName with
  | .error e => (st, some e)
  | .ok tr =>
    andThen (netPhase tr st) (fun s1 =>
      andThen (if cfg.collect_dropfiles then processDrops o taskName tr s1
          else (s1, none)) (fun s2 =>
        andThen (if cfg.collect_memdumps then processMems o taskName tr s2
            else (s2, none)) (fun s3 =>
          if cfg.collect_pcaps then processPcap o taskName s3 else (s3, none))))

/-- The `for task in report['tasks']` loop (the dead local assignment
`status = "reported"` inside it has no observable effect and is not
modelled). -/
def processTasks (o : Oracle) (cfg : Cfg) (tid : String)
    (tasks : List TriageTask) (st : Findings) : Findings × Option PyError :=
  tasks.foldl
    (fun acc task =>
      andThen acc (fun s =>
        if task.status = "reported" then
          if pyStartsWith task.name "behavioral" then
            processBehavioral o cfg tid task.name s
          else (s, none)
        else (s, none)))
    (st, none)

/-- The `if report['analysis'].get('family')` block: on a truthy family
list, register the lower-cased joined name as probable name and tag. -/
def familyPhase (pn : String) (a : Analysis) (st : Findings) : Findings :=
  match a.family with
  | none => st
  | some fs =>
    if fs.isEmpty then st
    else { st with probable_names := [pn.toLower], tags := [pn.toLower] }

/-- The `if report['analysis'].get('score')` block: a truthy score
overwrites the default `results['score'] = 0`. -/
def scorePhase (a : Analysis) (st : Findings) : Findings :=
  match a.score with
  | none => st
  | some n => if n = 0 then st else { st with score := some n }

/-- The `if report.get('signatures')` block (nested inside the
`analysis` check, as in the source): map each signature entry. -/
def signaturesPhase (r : Report) (st : Findings) : Findings :=
  match r.signatures with
  | none => st
  | some sigs =>
    if sigs.isEmpty then st
    else { st with signatures := some (sigs.map mapSig) }

/-- The start of `extract_info` up to the end of the `analysis` block:
`results['score'] = 0`, `results['signatures'] = []`, then family, score
and signature handling when the `analysis` section is truthy. -/
def analysisPhase (r : Report) : Findings :=
  let st0 : Findings := { emptyFindings with score := some 0, signatures := some [] }
  match r.analysis with
  | none => st0
  | some a => signaturesPhase r (scorePhase a (familyPhase (probableNameOf r) a st0))

/-- The `if report.get('extracted')` block: merge the configuration
maps, emit the `c2` IOCs, and stage the `add_extraction` call. -/
def extractedPhase (r : Report) (st : Findings) : Findings :=
  match r.extracted with
  | none => st
  | some items =>
    if items.isEmpty then st
    else
      let pe := processExtracted (probableNameOf r) items
      { st with iocs := st.iocs ++ pe.2,
                extractions := st.extractions ++
                  [(probableNameOf r ++ " configuration", pe.1)] }

/-- Full model of `HatchingTriage.extract_info`: the analysis block, the
`extracted` merge with its `c2` IOCs, then the per-task behavioral
processing.  Returns the findings accumulated up to the first exception,
if any. -/
def extract_info (o : Oracle) (cfg : Cfg) (tid : String) (r : Report) :
    Findings × Option PyError :=
  let st2 := extractedPhase r (analysisPhase r)
  match r.tasks with
  | none => (st2, none)
  | some tasks => if tasks.isEmpty then (st2, none) else processTasks o cfg tid tasks st2

end HatchingTriage

/-- Python's `urllib.parse.urljoin`, modelled for the shapes these
modules use: a base URL ending in `/` joined with a relative task-id
token, which is plain concatenation. -/
def urljoin (base rel : String) : String := base ++ rel

namespace HatchingTriage

/-- Submission-stage state: `self.task_id` (`none` = attribute never
assigned), the number of `submit_sample_file` calls, and the debug log. -/
structure Pipe where
  task_id : Option String
  submitFileCalls : Nat
  logs : List String
deriving DecidableEq, Repr

/-- Model of `HatchingTriage.submit_file`: one upload call; on success
the response id becomes `self.task_id`, on failure the exception
propagates. -/
def submit_file (o : Oracle) (p : Pipe) : Pipe × Option PyError :=
  match o.submitFile with
  | .ok i => ({ p with task_id := some i, submitFileCalls := p.submitFileCalls + 1 }, none)
  | .error e => ({ p with submitFileCalls := p.submitFileCalls + 1 }, some e)

/-- Model of `HatchingTriage.submit_url`. -/
def submit_url (o : Oracle) (p : Pipe) : Pipe × Option PyError :=
  match o.submitUrl with
  | .ok i => ({ p with task_id := some i }, none)
  | .error e => (p, some e)

/-- Model of `HatchingTriage.search_file`: hash the file, call the search
endpoint (an exception there propagates — the call is outside the inner
`try`), then `for item in response: self.task_id = item['id']`.  Only an
exception raised while iterating reaches the bare `except:` that logs
and submits; a successfully returned empty result runs the loop zero
times and leaves `task_id` unassigned without submitting. -/
def search_file (o : Oracle) (p : Pipe) : Pipe × Option PyError :=
  match o.searchCall with
  | .error e => (p, some e)
  | .ok items =>
    let p1 := items.foldl
      (fun q i => { q with task_id := some i,
                           logs := q.logs ++ ["Found existing report."] }) p
    match o.searchIterErr with
    | none => (p1, none)
    | some _ =>
      submit_file o { p1 with logs := p1.logs ++ ["No reports found. Submitting file."] }

/-- The status check of one polling iteration: reading `self.task_id`
raises `AttributeError` when it was never assigned, otherwise the n-th
status response is returned. -/
def checkOf (o : Oracle) (tid : Option String) : Nat → Except PyError String :=
  fun n =>
    match tid with
    | none => .error (.attributeError "'HatchingTriage' object has no attribute 'task_id'")
    | some _ => .ok (o.statuses n)

/-- Model of `HatchingTriage.process_report`: fetch the overview report
and run `extract_info`; any exception in the body — including a partial
`extract_info` failure — is wrapped into a `ModuleExecutionError`, while
the findings written before the exception persist on `self`. -/
def process_report (o : Oracle) (cfg : Cfg) (tid : Option String) :
    Findings × Option PyError :=
  match tid with
  | none =>
    (emptyFindings,
      some (.moduleExecutionError
        ("Error encountered while processing report:\n" ++
          pyStr (.attributeError "'HatchingTriage' object has no attribute 'task_id'"))))
  | some t =>
    match o.overview with
    | .error e =>
      (emptyFindings,
        some (.moduleExecutionError
          ("Error encountered while processing report:\n" ++ pyStr e)))
    | .ok rep =>
      let res := extract_info o cfg t rep
      match res.2 with
      | none => (res.1, none)
      | some e =>
        (res.1,
          some (.moduleExecutionError
            ("Error encountered while processing report:\n" ++ pyStr e)))

/-- The outcome of the `try` body of `each_with_type`: submission state,
findings, the `results['URL']` value if reached, and the first
uncaught-within-the-body exception. -/
structure BodyOut where
  pipe : Pipe
  findings : Findings
  url : Option String
  err : Option PyError
deriving DecidableEq, Repr

/-- The `try` body of `HatchingTriage.each_with_type`: submit (URL /
dedup-search / upload), wait for the analysis, process the report, then
attach the report URL.  The first exception aborts the remaining stages. -/
def runBody (o : Oracle) (cfg : Cfg) (file_type : String) : BodyOut :=
  let p0 : Pipe := ⟨none, 0, []⟩
  let sub : Pipe × Option PyError :=
    if file_type = "url" then submit_url o p0
    else if cfg.check_existing then search_file o p0
    else submit_file o p0
  match sub.2 with
  | some e => ⟨sub.1, emptyFindings, none, some e⟩
  | none =>
    let w := wait_for_analysis (checkOf o sub.1.task_id) "reported"
      cfg.wait_timeout cfg.wait_step
    match w.2 with
    | some e => ⟨sub.1, emptyFindings, none, some e⟩
    | none =>
      let pr := process_report o cfg sub.1.task_id
      match pr.2 with
      | some e => ⟨sub.1, pr.1, none, some e⟩
      | none =>
        match sub.1.task_id with
        | none =>
          ⟨sub.1, pr.1, none,
            some (.attributeError "'HatchingTriage' object has no attribute 'task_id'")⟩
        | some t => ⟨sub.1, pr.1, some (urljoin cfg.web_endpoint t), none⟩

/-- The observable outcome of one `each_with_type` invocation. -/
structure Invocation where
  retval : Bool
  task_id : Option String
  submitFileCalls : Nat
  findings : Findings
  url : Option String
  caught : Option PyError
  logs : List String
deriving DecidableEq, Repr

/-- Full model of `HatchingTriage.each_with_type`: run the body, catch
any exception at the boundary, log it at debug level, and return `True`
unconditionally. -/
def each_with_type (o : Oracle) (cfg : Cfg) (file_type : String) : Invocation :=
  let b := runBody o cfg file_type
  { retval := true
    task_id := b.pipe.task_id
    submitFileCalls := b.pipe.submitFileCalls
    findings := b.findings
    url := b.url
    caught := b.err
    logs := b.pipe.logs ++ (match b.err with | some e => [pyStr e] | none => []) }

/-- A concrete oracle for evaluating the model on specific inputs; the
fields individual examples care about are overridden per use. -/
def exOracle : Oracle :=
  ⟨"sha", .ok [], none, .ok "id1", .ok "id1", (fun _ => "pending"),
    .error (.other "unused"), (fun _ _ => .error (.other "unused")),
    (fun _ _ => .ok ()), (fun _ _ => "application/octet-stream")⟩

/-- A concrete configuration with the module's default settings. -/
def exCfg : Cfg := ⟨"https://tria.ge/", 5400, 30, true, false, false, false⟩

/-- A concrete behavioral task report: one TCP flow to `1.2.3.4:443`,
one DNS request whose first queried domain is `evil.example`, one HTTP
request for `http://evil.example/x`, nothing dumped. -/
def exTaskReport : TaskReport :=
  ⟨some ⟨some [⟨"tcp", "1.2.3.4:443"⟩],
    some [⟨some ⟨["evil.example"]⟩, none⟩, ⟨none, some ⟨"http://evil.example/x"⟩⟩]⟩,
    none⟩

/-- `exOracle` serving `exTaskReport` for the task named `behavioral1`. -/
def exOracleNet : Oracle :=
  { exOracle with taskReport :=
      fun _ n => if n = "behavioral1" then .ok exTaskReport
        else .error (.other "no such task") }

/-- A report whose only content is one behavioral task in terminal
status. -/
def exReportNet : Report := ⟨none, none, none, some [⟨"reported", "behavioral1"⟩]⟩

end HatchingTriage

namespace UnpacMe

/-- The `hashes` sub-dict of one result item (`sha256` is indexed
directly). -/
structure Hashes where
  sha256 : String
deriving DecidableEq, Repr

/-- One entry of a result item's `malware_id` list (`name` is indexed
directly). -/
structure MalId where
  name : String
deriving DecidableEq, Repr

/-- One entry of a result item's `detectit` list (`name` is indexed
directly). -/
structure DetectIt where
  name : String
deriving DecidableEq, Repr

/-- One entry of the report's `results` list.  `malware_id` and
`detectit` are read with `.get` (iterating an absent or empty list
contributes nothing either way, so both are folded into `getD []`). -/
structure UnpItem where
  hashes : Hashes
  malware_id : Option (List MalId)
  detectit : Option (List DetectIt)
deriving DecidableEq, Repr

/-- An UnpacMe results report: the `results` list, read with `.get`. -/
structure Report where
  results : Option (List UnpItem)
deriving DecidableEq, Repr

/-- One dict appended to `self.results['unpacked_executables']`. -/
structure UnpSig where
  name : String
  malwares : List String
  detects : List String
deriving DecidableEq, Repr

/-- What `extract_info` writes: the `unpacked_executables` results key
(`none` = key never set) and the registered derived files. -/
structure UnpFindings where
  unpacked : Option (List UnpSig)
  registered : List (String × String)
deriving DecidableEq, Repr

/-- The findings state before `extract_info` runs. -/
def emptyFindings : UnpFindings := ⟨none, []⟩

/-- Module configuration attributes read by the modelled code paths. -/
structure Cfg where
  web_endpoint : String
  wait_timeout : Int
  wait_step : Int
  check_existing : Bool
  collect_unpacked : Bool

/-- The UnpacMe REST service as an oracle.  `searchCall` is the parsed
JSON of the hash search: `.error` when the request or `r.json()` raises
(outside the inner `try`), `.ok none` when the parsed response lacks the
`results` key (`KeyError` inside the `try`), `.ok (some ids)` the listed
`submission_id`s. -/
structure Oracle where
  fileSha256 : String
  searchCall : Except PyError (Option (List String))
  submitFile : Except PyError String
  statuses : Nat → String
  resultsFetch : Except PyError Report
  download : String → Except PyError Unit

/-- Submission-stage state, as for the Hatching Triage module. -/
structure Pipe where
  task_id : Option String
  submitFileCalls : Nat
  logs : List String
deriving DecidableEq, Repr

/-- Model of `UnpacMe.submit_file` (the debug log of the raw response
dict is not tracked). -/
def submit_file (o : Oracle) (p : Pipe) : Pipe × Option PyError :=
  match o.submitFile with
  | .ok i => ({ p with task_id := some i, submitFileCalls := p.submitFileCalls + 1 }, none)
  | .error e => ({ p with submitFileCalls := p.submitFileCalls + 1 }, some e)

/-- Model of `UnpacMe.search_file`: the HTTP request and `r.json()` run
outside the inner `try`, so their exceptions propagate; a missing
`results` key raises `KeyError` inside the `try`, reaching the bare
`except:` that logs and submits; a present but empty `results` list runs
the loop zero times — no task id, no submission. -/
def search_file (o : Oracle) (p : Pipe) : Pipe × Option PyError :=
  match o.searchCall with
  | .error e => (p, some e)
  | .ok none =>
    submit_file o { p with logs := p.logs ++ ["No reports found. Submitting file."] }
  | .ok (some items) =>
    (items.foldl
      (fun q i => { q with task_id := some i,
                           logs := q.logs ++ ["Found existing report."] }) p,
      none)

/-- The status check of one polling iteration (reading an unassigned
`self.task_id` raises `AttributeError`). -/
def checkOf (o : Oracle) (tid : Option String) : Nat → Except PyError String :=
  fun n =>
    match tid with
    | none => .error (.attributeError "'UnpacMe' object has no attribute 'task_id'")
    | some _ => .ok (o.statuses n)

/-- Model of `UnpacMe.extract_info`: `results['unpacked_executables']`
is initialised to `[]`, then one signature dict per result item is
appended; with `collect_unpacked` set, each item's unpacked payload is
downloaded and registered.  A download failure stops processing but the
signatures appended before it persist. -/
def extract_info (o : Oracle) (cfg : Cfg) (r : Report) :
    UnpFindings × Option PyError :=
  let base : UnpFindings := ⟨some [], []⟩
  match r.results with
  | none => (base, none)
  | some items =>
    if items.isEmpty then (base, none)
    else
      items.foldl
        (fun acc it =>
          match acc.2 with
          | some _ => acc
          | none =>
            let sig : UnpSig :=
              ⟨it.hashes.sha256, (it.malware_id.getD []).map MalId.name,
                (it.detectit.getD []).map DetectIt.name⟩
            let st1 := { acc.1 with
              unpacked := some ((acc.1.unpacked.getD []) ++ [sig]) }
            if cfg.collect_unpacked then
              match o.download it.hashes.sha256 with
              | .error e => (st1, some e)
              | .ok _ =>
                ({ st1 with registered := st1.registered ++
                    [("unpacked_executable", "unpacme_unpacked_executable")] }, none)
            else (st1, none))
        (base, none)

/-- Model of `UnpacMe.process_report`: fetch the results and run
`extract_info`; any exception in the body is wrapped into a
`ModuleExecutionError`, the findings written before it persist. -/
def process_report (o : Oracle) (cfg : Cfg) (tid : Option String) :
    UnpFindings × Option PyError :=
  match tid with
  | none =>
    (emptyFindings,
      some (.moduleExecutionError
        ("Error encountered while processing report:\n" ++
          pyStr (.attributeError "'UnpacMe' object has no attribute 'task_id'"))))
  | some _t =>
    match o.resultsFetch with
    | .error e =>
      (emptyFindings,
        some (.moduleExecutionError
          ("Error encountered while processing report:\n" ++ pyStr e)))
    | .ok rep =>
      let res := extract_info o cfg rep
      match res.2 with
      | none => (res.1, none)
      | some e =>
        (res.1,
          some (.moduleExecutionError
            ("Error encountered while processing report:\n" ++ pyStr e)))

/-- The outcome of the `try` body of `UnpacMe.each_with_type`. -/
structure BodyOut where
  pipe : Pipe
  parent : Option String
  findings : UnpFindings
  url : Option String
  err : Option PyError
deriving DecidableEq, Repr

/-- The `try` body of `UnpacMe.each_with_type`: the SHA-256 is computed
and stored under `results['parent']` first; only `executable` targets
are submitted; then wait, process the report, attach the report URL. -/
def runBody (o : Oracle) (cfg : Cfg) (file_type : String) : BodyOut :=
  let parent := some o.fileSha256
  let p0 : Pipe := ⟨none, 0, []⟩
  let sub : Pipe × Option PyError :=
    if file_type = "executable" then
      if cfg.check_existing then search_file o p0 else submit_file o p0
    else (p0, none)
  match sub.2 with
  | some e => ⟨sub.1, parent, emptyFindings, none, some e⟩
  | none =>
    let w := wait_for_analysis (checkOf o sub.1.task_id) "complete"
      cfg.wait_timeout cfg.wait_step
    match w.2 with
    | some e => ⟨sub.1, parent, emptyFindings, none, some e⟩
    | none =>
      let pr := process_report o cfg sub.1.task_id
      match pr.2 with
      | some e => ⟨sub.1, parent, pr.1, none, some e⟩
      | none =>
        match sub.1.task_id with
        | none =>
          ⟨sub.1, parent, pr.1, none,
            some (.attributeError "'UnpacMe' object has no attribute 'task_id'")⟩
        | some t => ⟨sub.1, parent, pr.1, some (urljoin cfg.web_endpoint t), none⟩

/-- The observable outcome of one `UnpacMe.each_with_type` invocation. -/
structure Invocation where
  retval : Bool
  task_id : Option String
  submitFileCalls : Nat
  parent : Option String
  findings : UnpFindings
  url : Option String
  caught : Option PyError
  logs : List String
deriving DecidableEq, Repr

/-- Full model of `UnpacMe.each_with_type`: run the body, catch any
exception at the boundary, log it, return `True` unconditionally. -/
def each_with_type (o : Oracle) (cfg : Cfg) (file_type : String) : Invocation :=
  let b := runBody o cfg file_type
  { retval := true
    task_id := b.pipe.task_id
    submitFileCalls := b.pipe.submitFileCalls
    parent := b.parent
    findings := b.findings
    url := b.url
    caught := b.err
    logs := b.pipe.logs ++ (match b.err with | some e => [pyStr e] | none => []) }

/-- A concrete oracle for evaluating the model on specific inputs. -/
def exOracle : Oracle :=
  ⟨"sha", .ok (some []), .ok "id1", (fun _ => "pending"),
    .error (.other "unused"), (fun _ => .ok ())⟩

/-- A concrete configuration with the module's default settings. -/
def exCfg : Cfg := ⟨"https://www.unpac.me/results/", 5400, 30, true, false⟩

end UnpacMe

namespace ExtractPatool

/-- Module configuration (Python integers). -/
structure Cfg where
  maximum_extracted_files : Int
  maximum_automatic_analyses : Int
deriving DecidableEq, Repr

/-- The observable outcome of one `ExtractPatool.each` invocation:
`self.results` (`warnings`, `files`), the extracted files registered via
`add_extracted_file` with their `automatic_analysis` flag (paths are
identified by member name; the scoped temp directory is abstracted
away), and the return value. -/
structure Result where
  warnings : List String
  files : List String
  registered : List (String × Bool)
  retval : Bool
deriving DecidableEq, Repr

/-- Model of `ExtractPatool.each`.  `extractResult` is the outcome of
`patoolib.extract_archive` followed by `os.listdir(tmpdir)`: the member
names on success, the raised exception otherwise.  Members are only
collected into `namelist` — and registered — when the count is within
`maximum_extracted_files`; `results['files']` is the final `namelist`. -/
def each (extractResult : Except PyError (List String)) (cfg : Cfg) : Result :=
  match extractResult with
  | .error _ => ⟨["Could not extract."], [], [], true⟩
  | .ok members =>
    let should_extract := (members.length : Int) ≤ cfg.maximum_extracted_files
    let should_analyze := (members.length : Int) ≤ cfg.maximum_automatic_analyses
    if should_extract then
      ⟨[], members, members.map (fun m => (m, should_analyze)), true⟩
    else ⟨[], [], [], true⟩

end ExtractPatool

/-
  Basic lemmas: Python dict construction and lookup.
-/

theorem myOr_none_right (a : Option PyVal) : myOr a none = a := by
  cases a <;> rfl

theorem myOr_assoc (a b c : Option PyVal) :
    myOr (myOr a b) c = myOr a (myOr b c) := by
  cases a <;> rfl

theorem dlookup_cons (p : String × PyVal) (d : PyDict) (k : String) :
    dlookup (p :: d) k = if p.1 = k then some p.2 else dlookup d k := rfl

theorem lookupLast_cons (p : String × PyVal) (l : List (String × PyVal)) (k : String) :
    lookupLast (p :: l) k =
      myOr (lookupLast l k) (if p.1 = k then some p.2 else none) := rfl

theorem hasKey_cons (p : String × PyVal) (d : PyDict) (k : String) :
    hasKey (p :: d) k = if p.1 = k then true else hasKey d k := rfl

theorem dlookup_append (d₁ d₂ : PyDict) (k : String) :
    dlookup (d₁ ++ d₂) k = myOr (dlookup d₁ k) (dlookup d₂ k) := by
  induction d₁ with
  | nil => rfl
  | cons p rest ih =>
    rw [List.cons_append, dlookup_cons, dlookup_cons, ih]
    by_cases h : p.1 = k
    · rw [if_pos h, if_pos h]; rfl
    · rw [if_neg h, if_neg h]

theorem lookupLast_append (l₁ l₂ : List (String × PyVal)) (k : String) :
    lookupLast (l₁ ++ l₂) k = myOr (lookupLast l₂ k) (lookupLast l₁ k) := by
  induction l₁ with
  | nil =>
    rw [List.nil_append, show lookupLast [] k = none from rfl, myOr_none_right]
  | cons p rest ih =>
    rw [List.cons_append, lookupLast_cons, lookupLast_cons, ih, myOr_assoc]

theorem hasKey_false_dlookup (d : PyDict) (k : String)
    (h : hasKey d k = false) : dlookup d k = none := by
  induction d with
  | nil => rfl
  | cons p rest ih =>
    rw [hasKey_cons] at h
    rw [dlookup_cons]
    by_cases hp : p.1 = k
    · rw [if_pos hp] at h; exact absurd h (by simp)
    · rw [if_neg hp] at h
      rw [if_neg hp, ih h]

theorem hasKey_false_lookupLast (d : PyDict) (k : String)
    (h : hasKey d k = false) : lookupLast d k = none := by
  induction d with
  | nil => rfl
  | cons p rest ih =>
    rw [hasKey_cons] at h
    rw [lookupLast_cons]
    by_cases hp : p.1 = k
    · rw [if_pos hp] at h; exact absurd h (by simp)
    · rw [if_neg hp] at h
      rw [if_neg hp, ih h, myOr_none_right]

theorem dlookup_replace_eq (d : PyDict) (k : String) (v : PyVal) :
    dlookup (d.map (fun p => if p.1 = k then (k, v) else p)) k =
      if hasKey d k then some v else none := by
  induction d with
  | nil => rfl
  | cons p rest ih =>
    rw [List.map_cons, hasKey_cons]
    by_cases hp : p.1 = k
    · rw [if_pos hp, if_pos hp, dlookup_cons, if_pos (show (k, v).1 = k from rfl)]
      simp only [if_pos trivial]
    · rw [if_neg hp, if_neg hp, dlookup_cons, if_neg hp, ih]

theorem dlookup_replace_ne (d : PyDict) (k' : String) (v : PyVal) (k : String)
    (h : k ≠ k') :
    dlookup (d.map (fun p => if p.1 = k' then (k', v) else p)) k = dlookup d k := by
  have hkk : ¬ (k' = k) := fun he => h he.symm
  induction d with
  | nil => rfl
  | cons p rest ih =>
    rw [List.map_cons, dlookup_cons, dlookup_cons]
    by_cases hp : p.1 = k'
    · rw [if_pos hp, ih]
      rw [if_neg (show ¬ (((k', v) : String × PyVal).1 = k) from hkk), hp, if_neg hkk]
    · rw [if_neg hp, ih]

theorem lookupLast_replace_eq (d : PyDict) (k : String) (v : PyVal) :
    lookupLast (d.map (fun p => if p.1 = k then (k, v) else p)) k =
      if hasKey d k then some v else none := by
  induction d with
  | nil => rfl
  | cons p rest ih =>
    rw [List.map_cons, hasKey_cons, lookupLast_cons]
    by_cases hp : p.1 = k
    · rw [if_pos hp, if_pos hp, ih, if_pos (show (k, v).1 = k from rfl)]
      by_cases hr : hasKey rest k
      · rw [if_pos hr]; rfl
      · rw [if_neg hr]; rfl
    · rw [if_neg hp, if_neg hp, ih, if_neg hp, myOr_none_right]

theorem lookupLast_replace_ne (d : PyDict) (k' : String) (v : PyVal) (k : String)
    (h : k ≠ k') :
    lookupLast (d.map (fun p => if p.1 = k' then (k', v) else p)) k =
      lookupLast d k := by
  have hkk : ¬ (k' = k) := fun he => h he.symm
  induction d with
  | nil => rfl
  | cons p rest ih =>
    rw [List.map_cons, lookupLast_cons, lookupLast_cons]
    by_cases hp : p.1 = k'
    · rw [if_pos hp, ih]
      rw [if_neg (show ¬ (((k', v) : String × PyVal).1 = k) from hkk), hp, if_neg hkk]
    · rw [if_neg hp, ih]

theorem dlookup_dictInsert (d : PyDict) (k' : String) (v : PyVal) (k : String) :
    dlookup (dictInsert d k' v) k = if k' = k then some v else dlookup d k := by
  unfold dictInsert
  cases hmem : hasKey d k' with
  | true =>
    rw [if_pos rfl]
    by_cases hk : k' = k
    · subst hk
      rw [dlookup_replace_eq, hmem, if_pos rfl, if_pos rfl]
    · rw [dlookup_replace_ne d k' v k (fun h => hk h.symm), if_neg hk]
  | false =>
    rw [if_neg (by simp [hmem]), dlookup_append]
    by_cases hk : k' = k
    · subst hk
      rw [hasKey_false_dlookup d k' hmem, if_pos rfl, dlookup_cons,
        if_pos (show ((k', v) : String × PyVal).1 = k' from rfl)]
      rfl
    · rw [if_neg hk, dlookup_cons, if_neg hk]
      rw [show dlookup [] k = none from rfl, myOr_none_right]


theorem canon_nil : Canon [] := fun _ => rfl

theorem canon_dictInsert (d : PyDict) (k' : String) (v : PyVal)
    (hc : Canon d) : Canon (dictInsert d k' v) := by
  intro k
  unfold dictInsert
  cases hmem : hasKey d k' with
  | true =>
    rw [if_pos rfl]
    by_cases hk : k = k'
    · subst hk
      rw [dlookup_replace_eq, lookupLast_replace_eq]
    · rw [dlookup_replace_ne d k' v k hk, lookupLast_replace_ne d k' v k hk]
      exact hc k
  | false =>
    rw [if_neg (by simp [hmem]), dlookup_append, lookupLast_append]
    by_cases hk : k' = k
    · subst hk
      rw [hasKey_false_dlookup d k' hmem, hc k', hasKey_false_dlookup d k' hmem]
      rw [lookupLast_cons, dlookup_cons,
        if_pos (show ((k', v) : String × PyVal).1 = k' from rfl),
        if_pos (show ((k', v) : String × PyVal).1 = k' from rfl)]
      rfl
    · rw [lookupLast_cons, dlookup_cons, if_neg hk, if_neg hk]
      rw [show lookupLast [] k = none from rfl, show dlookup [] k = none from rfl]
      rw [myOr_none_right, hc k]
      cases dlookup d k <;> rfl

theorem canon_foldl (l : List (String × PyVal)) :
    ∀ d : PyDict, Canon d →
      Canon (l.foldl (fun d p => dictInsert d p.1 p.2) d) := by
  induction l with
  | nil => intro d hd; exact hd
  | cons p rest ih =>
    intro d hd
    exact ih (dictInsert d p.1 p.2) (canon_dictInsert d p.1 p.2 hd)

theorem canon_dictOf (l : List (String × PyVal)) : Canon (dictOf l) :=
  canon_foldl l [] canon_nil

theorem dictOf_go (l : List (String × PyVal)) :
    ∀ (d : PyDict) (k : String),
      dlookup (l.foldl (fun d p => dictInsert d p.1 p.2) d) k =
        myOr (lookupLast l k) (dlookup d k) := by
  induction l with
  | nil => intro d k; rfl
  | cons p rest ih =>
    intro d k
    rw [List.foldl_cons, ih (dictInsert d p.1 p.2) k, dlookup_dictInsert]
    show myOr (lookupLast rest k) (if p.1 = k then some p.2 else dlookup d k) =
      myOr (myOr (lookupLast rest k) (if p.1 = k then some p.2 else none))
        (dlookup d k)
    rw [myOr_assoc]
    by_cases hp : p.1 = k
    · simp [hp, myOr]
    · simp [hp, myOr]

theorem dlookup_dictOf (l : List (String × PyVal)) (k : String) :
    dlookup (dictOf l) k = lookupLast l k := by
  unfold dictOf
  rw [dictOf_go l [] k]
  exact myOr_none_right _

theorem pollLoop_zero (check : Nat → Except PyError String) (term : String)
    (timeout step : Int) (s : PollOut) :
    pollLoop check term timeout step 0 s = s := rfl

theorem pollLoop_succ (check : Nat → Except PyError String) (term : String)
    (timeout step : Int) (fuel : Nat) (s : PollOut) :
    pollLoop check term timeout step (fuel + 1) s =
      if s.waited < timeout then
        match check s.checks with
        | .error e => { s with checks := s.checks + 1, callErr := some e }
        | .ok st =>
          if st = term then { s with checks := s.checks + 1, status := some st }
          else
            pollLoop check term timeout step fuel
              { s with checks := s.checks + 1, status := some st,
                       waited := s.waited + step }
      else s := rfl

/-- The loop exits immediately when the `waited_time < wait_timeout`
condition is already false. -/
theorem pollLoop_exit (check : Nat → Except PyError String) (term : String)
    (timeout step : Int) (fuel : Nat) (s : PollOut)
    (h : ¬ s.waited < timeout) :
    pollLoop check term timeout step fuel s = s := by
  cases fuel with
  | zero => rfl
  | succ n => rw [pollLoop_succ, if_neg h]

/-
  Helper lemmas about the polling loop.
-/

/-- Sleeping never pushes `waited_time` past `wait_timeout + wait_step`:
each sleep is guarded by `waited_time < wait_timeout`. -/
theorem pollLoop_waited_le (check : Nat → Except PyError String) (term : String)
    (timeout step : Int) :
    ∀ (fuel : Nat) (s : PollOut), s.waited ≤ timeout + step →
      (pollLoop check term timeout step fuel s).waited ≤ timeout + step := by
  intro fuel
  induction fuel with
  | zero => intro s h; exact h
  | succ n ih =>
    intro s h
    rw [pollLoop_succ]
    by_cases hw : s.waited < timeout
    · rw [if_pos hw]
      split
      · exact h
      · split
        · exact h
        · exact ih _ (show s.waited + step ≤ timeout + step by omega)
    · rw [if_neg hw]; exact h

/-- The loop result either is the entry state, or it performed its last
status check from a state with `waited_time < wait_timeout`, so (with
the invariant `waited_time = checks * wait_step`) its check count times
`wait_step` stays below `wait_timeout + wait_step`. -/
theorem pollLoop_checks_lt (check : Nat → Except PyError String) (term : String)
    (timeout step : Int) :
    ∀ (fuel : Nat) (s : PollOut), s.waited = (s.checks : Int) * step →
      pollLoop check term timeout step fuel s = s ∨
        ((pollLoop check term timeout step fuel s).checks : Int) * step <
          timeout + step := by
  intro fuel
  induction fuel with
  | zero => intro s _; exact Or.inl rfl
  | succ n ih =>
    intro s h
    rw [pollLoop_succ]
    by_cases hw : s.waited < timeout
    · rw [if_pos hw]
      have hx : ((s.checks + 1 : Nat) : Int) * step = (s.checks : Int) * step + step := by
        push_cast; ring
      split
      · refine Or.inr ?_
        show ((s.checks + 1 : Nat) : Int) * step < timeout + step
        rw [hx, ← h]
        linarith
      · split
        · refine Or.inr ?_
          show ((s.checks + 1 : Nat) : Int) * step < timeout + step
          rw [hx, ← h]
          linarith
        · rename_i st heqc hterm
          rcases ih { s with checks := s.checks + 1, status := some st, waited := s.waited + step } (show s.waited + step = ((s.checks + 1 : Nat) : Int) * step by rw [hx, h]) with heq | hlt
          · refine Or.inr ?_
            rw [heq]
            show ((s.checks + 1 : Nat) : Int) * step < timeout + step
            rw [hx, ← h]
            linarith
          · exact Or.inr hlt
    · rw [if_neg hw]; exact Or.inl rfl

/-- When every status call succeeds with a non-terminal status, the loop
never errors, and its final `status` is either the entry state's or one
of the polled values. -/
theorem pollLoop_never_term_inv (check : Nat → Except PyError String)
    (f : Nat → String) (term : String) (timeout step : Int)
    (hok : ∀ n, check n = .ok (f n)) (hterm : ∀ n, f n ≠ term) :
    ∀ (fuel : Nat) (s : PollOut), s.callErr = none →
      (pollLoop check term timeout step fuel s).callErr = none ∧
        ((pollLoop check term timeout step fuel s).status = s.status ∨
          ∃ n, (pollLoop check term timeout step fuel s).status = some (f n)) := by
  intro fuel
  induction fuel with
  | zero => intro s h; exact ⟨h, Or.inl rfl⟩
  | succ n ih =>
    intro s h
    rw [pollLoop_succ]
    by_cases hw : s.waited < timeout
    · rw [if_pos hw]
      split
      · rename_i e heqc
        rw [hok s.checks] at heqc
        exact absurd heqc (by simp)
      · split
        · rename_i st heqc hterm2
          rw [hok s.checks] at heqc
          have hst : f s.checks = st := by injection heqc
          exact absurd (hst.trans hterm2) (hterm s.checks)
        · rename_i st heqc hterm2
          rw [hok s.checks] at heqc
          have hst : f s.checks = st := by injection heqc
          rcases ih { s with checks := s.checks + 1, status := some st, waited := s.waited + step } (show s.callErr = none from h) with ⟨hc, hd⟩
          refine ⟨hc, Or.inr ?_⟩
          rcases hd with hd | ⟨m, hd⟩
          · exact ⟨s.checks, by rw [hd, hst]⟩
          · exact ⟨m, hd⟩
    · rw [if_neg hw]; exact ⟨h, Or.inl rfl⟩

theorem finishPoll_callErr (r : PollOut) (term : String) (e : PyError)
    (hc : r.callErr = some e) : finishPoll r term = some e := by
  obtain ⟨ck, w, stt, ce⟩ := r
  have hc' : ce = some e := hc
  subst hc'
  rfl

theorem finishPoll_timeout (r : PollOut) (term st : String)
    (hc : r.callErr = none) (hs : r.status = some st) (hne : st ≠ term) :
    finishPoll r term =
      some (.moduleExecutionError "could not get report before timeout.") := by
  obtain ⟨ck, w, stt, ce⟩ := r
  have hc' : ce = none := hc
  have hs' : stt = some st := hs
  subst hc'
  subst hs'
  show (if st = term then none
    else some (PyError.moduleExecutionError "could not get report before timeout.")) =
    some (PyError.moduleExecutionError "could not get report before timeout.")
  rw [if_neg hne]

theorem finishPoll_ok (r : PollOut) (term : String)
    (hc : r.callErr = none) (hs : r.status = some term) :
    finishPoll r term = none := by
  obtain ⟨ck, w, stt, ce⟩ := r
  have hc' : ce = none := hc
  have hs' : stt = some term := hs
  subst hc'
  subst hs'
  show (if term = term then none
    else some (PyError.moduleExecutionError "could not get report before timeout.")) = none
  rw [if_pos rfl]

/-- If every status poll within the timeout returns a non-terminal
status, `wait_for_analysis` raises the timeout `ModuleExecutionError`. -/
theorem wait_for_analysis_never_term (check : Nat → Except PyError String)
    (f : Nat → String) (term : String) (timeout step : Int)
    (hok : ∀ n, check n = .ok (f n)) (hterm : ∀ n, f n ≠ term)
    (ht : 0 < timeout) :
    (wait_for_analysis check term timeout step).2 =
      some (.moduleExecutionError "could not get report before timeout.") := by
  have hmain : (pollLoop check term timeout step (pollFuel timeout step) pollInit).callErr = none ∧
      ∃ n, (pollLoop check term timeout step (pollFuel timeout step) pollInit).status = some (f n) := by
    rw [show pollFuel timeout step = timeout.toNat / step.toNat + 1 + 1 from rfl,
      pollLoop_succ, if_pos (show pollInit.waited < timeout from ht)]
    split
    · rename_i e heqc
      rw [show pollInit.checks = 0 from rfl, hok 0] at heqc
      exact absurd heqc (by simp)
    · split
      · rename_i st heqc hterm2
        rw [show pollInit.checks = 0 from rfl, hok 0] at heqc
        have hst : f 0 = st := by injection heqc
        exact absurd (hst.trans hterm2) (hterm 0)
      · rename_i st heqc hterm2
        rw [show pollInit.checks = 0 from rfl, hok 0] at heqc
        have hst : f 0 = st := by injection heqc
        rcases pollLoop_never_term_inv check f term timeout step hok hterm (timeout.toNat / step.toNat + 1) { pollInit with checks := pollInit.checks + 1, status := some st, waited := pollInit.waited + step } (show pollInit.callErr = none from rfl) with ⟨hc, hd⟩
        refine ⟨hc, ?_⟩
        rcases hd with hd | ⟨m, hd⟩
        · refine ⟨0, ?_⟩
          rw [hd]
          show some st = some (f 0)
          rw [hst]
        · exact ⟨m, hd⟩
  obtain ⟨hc, n, hs'⟩ := hmain
  exact finishPoll_timeout _ term (f n) hc hs' (hterm n)

/-- C3: for positive `wait_timeout` and `wait_step`, the polling loop
performs at most `ceil(wait_timeout / wait_step)` status checks and its
cumulative sleep time (each sleep adding `wait_step`) is at most
`wait_timeout + wait_step`.  This covers both sandbox modules, whose
`wait_for_analysis` differ only in the terminal status string. -/
theorem wait_for_analysis_poll_bounds (check : Nat → Except PyError String)
    (term : String) (timeout step : Int) (ht : 0 < timeout) (hs : 0 < step) :
    (wait_for_analysis check term timeout step).1.checks ≤
      (timeout.toNat + step.toNat - 1) / step.toNat ∧
    (wait_for_analysis check term timeout step).1.waited ≤ timeout + step := by
  have hfst : (wait_for_analysis check term timeout step).1 =
      pollLoop check term timeout step (pollFuel timeout step) pollInit := rfl
  rw [hfst]
  constructor
  · rcases pollLoop_checks_lt check term timeout step (pollFuel timeout step)
        pollInit (show (0:Int) = ((0:Nat):Int) * step by simp) with heq | hlt
    · rw [heq]; exact Nat.zero_le _
    · set c := (pollLoop check term timeout step (pollFuel timeout step) pollInit).checks with hcdef
      have hS0 : 0 < step.toNat := by omega
      have hnat : c * step.toNat < timeout.toNat + step.toNat := by
        have h1 : ((c * step.toNat : Nat) : Int) < ((timeout.toNat + step.toNat : Nat) : Int) := by
          push_cast
          rw [Int.toNat_of_nonneg (show (0:Int) ≤ step by omega),
            Int.toNat_of_nonneg (show (0:Int) ≤ timeout by omega)]
          exact hlt
        exact_mod_cast h1
      have hle : c * step.toNat ≤ timeout.toNat + step.toNat - 1 := by omega
      exact (Nat.le_div_iff_mul_le hS0).mpr hle
  · exact pollLoop_waited_le check term timeout step _ pollInit
      (show (0:Int) ≤ timeout + step by omega)

theorem wait_for_analysis_poll_bounds_witness :
    (0:Int) < 3 ∧ (0:Int) < 2 ∧
    ((wait_for_analysis (fun _ => .ok "pending") "reported" 3 2).1.checks ≤
        ((3:Int).toNat + (2:Int).toNat - 1) / (2:Int).toNat ∧
      (wait_for_analysis (fun _ => .ok "pending") "reported" 3 2).1.waited ≤ 3 + 2) :=
  ⟨by decide, by decide,
    wait_for_analysis_poll_bounds (fun _ => .ok "pending") "reported" 3 2
      (by decide) (by decide)⟩

/-- C10: with `wait_timeout <= 0` the loop body never runs, so no status
check is performed and the final `if status != ...` comparison reads the
never-assigned local `status`, raising `NameError` — not the timeout
`ModuleExecutionError`.  (Both modules share this loop.) -/
theorem wait_for_analysis_nonpositive_timeout (check : Nat → Except PyError String)
    (term : String) (timeout step : Int) (h : timeout ≤ 0) :
    wait_for_analysis check term timeout step =
      (pollInit, some (.nameError "name 'status' is not defined")) ∧
    (wait_for_analysis check term timeout step).1.checks = 0 ∧
    (wait_for_analysis check term timeout step).2 ≠
      some (.moduleExecutionError "could not get report before timeout.") := by
  have hloop : pollLoop check term timeout step (pollFuel timeout step) pollInit = pollInit :=
    pollLoop_exit check term timeout step _ pollInit (show ¬ ((0:Int) < timeout) by omega)
  have hw : wait_for_analysis check term timeout step = (pollInit, finishPoll pollInit term) := by
    show (pollLoop check term timeout step (pollFuel timeout step) pollInit,
      finishPoll (pollLoop check term timeout step (pollFuel timeout step) pollInit) term) = _
    rw [hloop]
  rw [hw]
  refine ⟨rfl, rfl, ?_⟩
  show some (PyError.nameError "name 'status' is not defined") ≠
    some (PyError.moduleExecutionError "could not get report before timeout.")
  decide

theorem wait_for_analysis_nonpositive_timeout_witness :
    (0:Int) ≤ 0 ∧
    (wait_for_analysis (fun _ => .ok "pending") "reported" 0 30 =
      (pollInit, some (.nameError "name 'status' is not defined")) ∧
    (wait_for_analysis (fun _ => .ok "pending") "reported" 0 30).1.checks = 0 ∧
    (wait_for_analysis (fun _ => .ok "pending") "reported" 0 30).2 ≠
      some (.moduleExecutionError "could not get report before timeout.")) :=
  ⟨by decide,
    wait_for_analysis_nonpositive_timeout (fun _ => .ok "pending") "reported" 0 30
      (by decide)⟩

/-
  Lemmas characterising the `extracted` merge of
  `HatchingTriage.extract_info` (claim C1).
-/

theorem firstWins_append (l₁ l₂ : List PyDict) (k : String) :
    firstWins (l₁ ++ l₂) k = myOr (firstWins l₁ k) (firstWins l₂ k) := by
  induction l₁ with
  | nil => rfl
  | cons m ms ih =>
    show myOr (lookupLast m k) (firstWins (ms ++ l₂) k) =
      myOr (myOr (lookupLast m k) (firstWins ms k)) (firstWins l₂ k)
    rw [ih, myOr_assoc]

theorem dlookup_mergeStep (m : Option PyDict) (acc : PyDict) (k : String)
    (hc : Canon acc) :
    dlookup (HatchingTriage.mergeStep m acc) k =
      myOr (dlookup acc k) (lookupLast (m.getD []) k) := by
  cases m with
  | none =>
    show dlookup acc k = myOr (dlookup acc k) (lookupLast [] k)
    rw [show lookupLast [] k = none from rfl, myOr_none_right]
  | some l =>
    show dlookup (if l.isEmpty then acc else dictOf (l ++ acc)) k =
      myOr (dlookup acc k) (lookupLast l k)
    by_cases he : l.isEmpty
    · rw [if_pos he, List.isEmpty_iff.mp he]
      rw [show lookupLast [] k = none from rfl, myOr_none_right]
    · rw [if_neg he, dlookup_dictOf, lookupLast_append, hc k]

theorem canon_mergeStep (m : Option PyDict) (acc : PyDict) (hc : Canon acc) :
    Canon (HatchingTriage.mergeStep m acc) := by
  cases m with
  | none => exact hc
  | some l =>
    show Canon (if l.isEmpty then acc else dictOf (l ++ acc))
    by_cases he : l.isEmpty
    · rw [if_pos he]; exact hc
    · rw [if_neg he]; exact canon_dictOf _

theorem canon_processExtractedItem (pn : String) (acc : PyDict × List IOC)
    (it : HatchingTriage.ExtractedItem) (hc : Canon acc.1) :
    Canon (HatchingTriage.processExtractedItem pn acc it).1 :=
  canon_mergeStep _ _ (canon_mergeStep _ _ (canon_mergeStep _ _ hc))

theorem dlookup_processExtractedItem (pn : String) (acc : PyDict × List IOC)
    (it : HatchingTriage.ExtractedItem) (k : String) (hc : Canon acc.1) :
    dlookup (HatchingTriage.processExtractedItem pn acc it).1 k =
      myOr (dlookup acc.1 k)
        (firstWins [it.config.getD [], it.credentials.getD [], it.dropper.getD []] k) := by
  show dlookup (HatchingTriage.mergeStep it.dropper
    (HatchingTriage.mergeStep it.credentials
      (HatchingTriage.mergeStep it.config acc.1))) k = _
  rw [dlookup_mergeStep _ _ k (canon_mergeStep _ _ (canon_mergeStep _ _ hc)),
    dlookup_mergeStep _ _ k (canon_mergeStep _ _ hc),
    dlookup_mergeStep _ _ k hc]
  show _ = myOr (dlookup acc.1 k) (myOr (lookupLast (it.config.getD []) k)
    (myOr (lookupLast (it.credentials.getD []) k)
      (myOr (lookupLast (it.dropper.getD []) k) none)))
  rw [myOr_none_right, myOr_assoc, myOr_assoc]

theorem dlookup_processExtracted_go (pn : String) (items : List HatchingTriage.ExtractedItem) (k : String) :
    ∀ acc : PyDict × List IOC, Canon acc.1 →
      dlookup (items.foldl (HatchingTriage.processExtractedItem pn) acc).1 k =
        myOr (dlookup acc.1 k) (firstWins (HatchingTriage.contributedMaps items) k) := by
  induction items with
  | nil =>
    intro acc _
    show dlookup acc.1 k = myOr (dlookup acc.1 k) (firstWins [] k)
    rw [show firstWins [] k = none from rfl, myOr_none_right]
  | cons it its ih =>
    intro acc hc
    rw [List.foldl_cons, ih _ (canon_processExtractedItem pn acc it hc),
      dlookup_processExtractedItem pn acc it k hc, myOr_assoc]
    show myOr (dlookup acc.1 k) _ = myOr (dlookup acc.1 k)
      (firstWins ([it.config.getD [], it.credentials.getD [], it.dropper.getD []] ++
        HatchingTriage.contributedMaps its) k)
    rw [firstWins_append]

/-- C1 (amended): the merge of the `config` / `credentials` / `dropper`
maps across the `extracted` sub-items is FIRST-write-wins, not
last-write-wins: `dict(chain(new.items(), configuration.items()))` lists
the already-merged `configuration` pairs last, so they overwrite the new
item's pairs.  For every key, the value in the final merged map passed
to `add_extraction` is the one of the earliest contributed map (sub-items
in report order; within a sub-item `config`, then `credentials`, then
`dropper`) that binds the key. -/
theorem hatchingtriage_merge_firstwins (pn : String)
    (items : List HatchingTriage.ExtractedItem) (k : String) :
    dlookup (HatchingTriage.processExtracted pn items).1 k =
      firstWins (HatchingTriage.contributedMaps items) k := by
  show dlookup (items.foldl (HatchingTriage.processExtractedItem pn) ([], [])).1 k = _
  rw [dlookup_processExtracted_go pn items k ([], []) canon_nil]
  rfl

/-- C1 (counterexample): with two `extracted` sub-items whose `config`
maps share the key `"k"` (first value `"v1"`, second `"v2"`), the merged
configuration handed to `add_extraction` holds the FIRST sub-item's
value `"v1"`, not the second's — refuting last-write-wins. -/
theorem hatchingtriage_merge_lastwins_counterexample :
    (HatchingTriage.extract_info HatchingTriage.exOracle HatchingTriage.exCfg "tid"
        ⟨none, none,
          some [⟨some [("k", .str "v1")], none, none⟩,
                ⟨some [("k", .str "v2")], none, none⟩], none⟩).1.extractions =
      [(" configuration", [("k", PyVal.str "v1")])] ∧
    dlookup [("k", PyVal.str "v1")] "k" = some (PyVal.str "v1") ∧
    some (PyVal.str "v1") ≠ some (PyVal.str "v2") := by
  refine ⟨?_, ?_, ?_⟩ <;> decide

/-- C7: on a report with exactly one behavioral task in terminal status
whose task report holds one TCP flow to `1.2.3.4:443`, one DNS request
whose first queried domain is `evil.example` and one HTTP request for
`http://evil.example/x`, `extract_info` emits exactly the three IOCs
`1.2.3.4 [port:443, tcp]`, `evil.example [dns_request]` and
`http://evil.example/x [http_request]`, and raises nothing. -/
theorem hatchingtriage_network_iocs_concrete :
    (HatchingTriage.extract_info HatchingTriage.exOracleNet HatchingTriage.exCfg
        "tid" HatchingTriage.exReportNet).1.iocs =
      [⟨"1.2.3.4", ["port:443", "tcp"]⟩, ⟨"evil.example", ["dns_request"]⟩,
        ⟨"http://evil.example/x", ["http_request"]⟩] ∧
    (HatchingTriage.extract_info HatchingTriage.exOracleNet HatchingTriage.exCfg
        "tid" HatchingTriage.exReportNet).2 = none := by
  refine ⟨?_, ?_⟩ <;> decide

/-
  IOC bookkeeping for `extract_info` (claims C7/C9): task processing
  only appends to the IOC list, and the `extracted` phase emits exactly
  the `c2` IOCs.
-/

theorem foldl_preserve {α β : Type} (P : β → Prop) (f : β → α → β)
    (h : ∀ b a, P b → P (f b a)) : ∀ (l : List α) (b : β), P b → P (l.foldl f b) := by
  intro l
  induction l with
  | nil => intro b hb; exact hb
  | cons a as ih => intro b hb; exact ih _ (h b a hb)

theorem andThen_iocs_mono (a : HatchingTriage.Findings × Option PyError)
    (f : HatchingTriage.Findings → HatchingTriage.Findings × Option PyError)
    (x : IOC) (ha : x ∈ a.1.iocs)
    (hf : ∀ s : HatchingTriage.Findings, x ∈ s.iocs → x ∈ (f s).1.iocs) :
    x ∈ (HatchingTriage.andThen a f).1.iocs := by
  unfold HatchingTriage.andThen
  split
  · exact ha
  · exact hf a.1 ha

theorem flowStep_iocs_mono (flow : HatchingTriage.NetFlow)
    (st : HatchingTriage.Findings) (x : IOC) (hx : x ∈ st.iocs) :
    x ∈ (HatchingTriage.flowStep flow st).1.iocs := by
  unfold HatchingTriage.flowStep
  split
  · split
    · exact List.mem_append_left _ hx
    · exact hx
  · exact hx

theorem dnsStep_iocs_mono (item : HatchingTriage.NetRequest)
    (st : HatchingTriage.Findings) (x : IOC) (hx : x ∈ st.iocs) :
    x ∈ (HatchingTriage.dnsStep item st).1.iocs := by
  unfold HatchingTriage.dnsStep
  split
  · exact hx
  · split
    · exact List.mem_append_left _ hx
    · exact hx

theorem httpStep_iocs_mono (item : HatchingTriage.NetRequest)
    (st : HatchingTriage.Findings) (x : IOC) (hx : x ∈ st.iocs) :
    x ∈ (HatchingTriage.httpStep item st).iocs := by
  unfold HatchingTriage.httpStep
  split
  · exact hx
  · exact List.mem_append_left _ hx

theorem requestStep_iocs_mono (item : HatchingTriage.NetRequest)
    (st : HatchingTriage.Findings) (x : IOC) (hx : x ∈ st.iocs) :
    x ∈ (HatchingTriage.requestStep item st).1.iocs :=
  andThen_iocs_mono _ _ x (dnsStep_iocs_mono item st x hx)
    (fun s hs => httpStep_iocs_mono item s x hs)

theorem processFlows_iocs_mono (fls : List HatchingTriage.NetFlow)
    (st : HatchingTriage.Findings) (x : IOC) (hx : x ∈ st.iocs) :
    x ∈ (HatchingTriage.processFlows fls st).1.iocs := by
  unfold HatchingTriage.processFlows
  exact foldl_preserve (fun acc => x ∈ acc.1.iocs) _
    (fun b a hb => andThen_iocs_mono b _ x hb (fun s hs => flowStep_iocs_mono a s x hs))
    fls (st, none) hx

theorem processRequests_iocs_mono (reqs : List HatchingTriage.NetRequest)
    (st : HatchingTriage.Findings) (x : IOC) (hx : x ∈ st.iocs) :
    x ∈ (HatchingTriage.processRequests reqs st).1.iocs := by
  unfold HatchingTriage.processRequests
  exact foldl_preserve (fun acc => x ∈ acc.1.iocs) _
    (fun b a hb => andThen_iocs_mono b _ x hb (fun s hs => requestStep_iocs_mono a s x hs))
    reqs (st, none) hx

theorem netPhase_iocs_mono (tr : HatchingTriage.TaskReport)
    (st : HatchingTriage.Findings) (x : IOC) (hx : x ∈ st.iocs) :
    x ∈ (HatchingTriage.netPhase tr st).1.iocs := by
  unfold HatchingTriage.netPhase
  split
  · exact hx
  · refine andThen_iocs_mono _ _ x ?_ ?_
    · split
      · exact hx
      · split
        · exact hx
        · exact processFlows_iocs_mono _ _ x hx
    · intro s hs
      split
      · exact hs
      · split
        · exact hs
        · exact processRequests_iocs_mono _ _ x hs

theorem dropStep_iocs_mono (o : HatchingTriage.Oracle) (tn : String)
    (it : HatchingTriage.DumpedItem) (st : HatchingTriage.Findings) (x : IOC)
    (hx : x ∈ st.iocs) : x ∈ (HatchingTriage.dropStep o tn it st).1.iocs := by
  unfold HatchingTriage.dropStep
  split
  · split
    · exact hx
    · split
      · exact hx
      · exact hx
  · exact hx

theorem memStep_iocs_mono (o : HatchingTriage.Oracle) (tn : String)
    (it : HatchingTriage.DumpedItem) (st : HatchingTriage.Findings) (x : IOC)
    (hx : x ∈ st.iocs) : x ∈ (HatchingTriage.memStep o tn it st).1.iocs := by
  unfold HatchingTriage.memStep
  split
  · split
    · exact hx
    · exact hx
  · exact hx

theorem processDrops_iocs_mono (o : HatchingTriage.Oracle) (tn : String)
    (tr : HatchingTriage.TaskReport) (st : HatchingTriage.Findings) (x : IOC)
    (hx : x ∈ st.iocs) : x ∈ (HatchingTriage.processDrops o tn tr st).1.iocs := by
  unfold HatchingTriage.processDrops
  split
  · exact hx
  · split
    · exact hx
    · exact foldl_preserve (fun acc => x ∈ acc.1.iocs) _
        (fun b a hb => andThen_iocs_mono b _ x hb (fun s hs => dropStep_iocs_mono o tn a s x hs))
        _ (st, none) hx

theorem processMems_iocs_mono (o : HatchingTriage.Oracle) (tn : String)
    (tr : HatchingTriage.TaskReport) (st : HatchingTriage.Findings) (x : IOC)
    (hx : x ∈ st.iocs) : x ∈ (HatchingTriage.processMems o tn tr st).1.iocs := by
  unfold HatchingTriage.processMems
  split
  · exact hx
  · split
    · exact hx
    · exact foldl_preserve (fun acc => x ∈ acc.1.iocs) _
        (fun b a hb => andThen_iocs_mono b _ x hb (fun s hs => memStep_iocs_mono o tn a s x hs))
        _ (st, none) hx

theorem processPcap_iocs_mono (o : HatchingTriage.Oracle) (tn : String)
    (st : HatchingTriage.Findings) (x : IOC) (hx : x ∈ st.iocs) :
    x ∈ (HatchingTriage.processPcap o tn st).1.iocs := by
  unfold HatchingTriage.processPcap
  split
  · exact hx
  · exact hx

theorem processBehavioral_iocs_mono (o : HatchingTriage.Oracle)
    (cfg : HatchingTriage.Cfg) (tid tn : String) (st : HatchingTriage.Findings)
    (x : IOC) (hx : x ∈ st.iocs) :
    x ∈ (HatchingTriage.processBehavioral o cfg tid tn st).1.iocs := by
  unfold HatchingTriage.processBehavioral
  split
  · exact hx
  · refine andThen_iocs_mono _ _ x (netPhase_iocs_mono _ _ x hx) ?_
    intro s1 hs1
    refine andThen_iocs_mono _ _ x ?_ ?_
    · split
      · exact processDrops_iocs_mono o tn _ s1 x hs1
      · exact hs1
    · intro s2 hs2
      refine andThen_iocs_mono _ _ x ?_ ?_
      · split
        · exact processMems_iocs_mono o tn _ s2 x hs2
        · exact hs2
      · intro s3 hs3
        split
        · exact processPcap_iocs_mono o tn s3 x hs3
        · exact hs3

theorem processTasks_iocs_mono (o : HatchingTriage.Oracle)
    (cfg : HatchingTriage.Cfg) (tid : String)
    (tasks : List HatchingTriage.TriageTask) (st : HatchingTriage.Findings)
    (x : IOC) (hx : x ∈ st.iocs) :
    x ∈ (HatchingTriage.processTasks o cfg tid tasks st).1.iocs := by
  unfold HatchingTriage.processTasks
  refine foldl_preserve
    (fun acc : HatchingTriage.Findings × Option PyError => x ∈ acc.1.iocs) _ ?_
    tasks (st, none) hx
  intro b a hb
  refine andThen_iocs_mono b _ x hb ?_
  intro s hs
  split
  · split
    · exact processBehavioral_iocs_mono o cfg tid _ s x hs
    · exact hs
  · exact hs

theorem processExtracted_go_iocs (pn : String) :
    ∀ (items : List HatchingTriage.ExtractedItem) (acc : PyDict × List IOC),
      (items.foldl (HatchingTriage.processExtractedItem pn) acc).2 =
        acc.2 ++ (items.flatMap HatchingTriage.itemC2s).map
          (fun v => (⟨v, "c2" :: pySplit ',' pn⟩ : IOC)) := by
  intro items
  induction items with
  | nil => intro acc; simp
  | cons it its ih =>
    intro acc
    rw [List.foldl_cons, ih]
    show (acc.2 ++ (HatchingTriage.itemC2s it).map
        (fun v => (⟨v, "c2" :: pySplit ',' pn⟩ : IOC))) ++ _ = _
    simp [List.append_assoc]

theorem familyPhase_iocs (pn : String) (a : HatchingTriage.Analysis)
    (st : HatchingTriage.Findings) :
    (HatchingTriage.familyPhase pn a st).iocs = st.iocs := by
  unfold HatchingTriage.familyPhase
  split
  · rfl
  · split
    · rfl
    · rfl

theorem scorePhase_iocs (a : HatchingTriage.Analysis)
    (st : HatchingTriage.Findings) :
    (HatchingTriage.scorePhase a st).iocs = st.iocs := by
  unfold HatchingTriage.scorePhase
  split
  · rfl
  · split
    · rfl
    · rfl

theorem signaturesPhase_iocs (r : HatchingTriage.Report)
    (st : HatchingTriage.Findings) :
    (HatchingTriage.signaturesPhase r st).iocs = st.iocs := by
  unfold HatchingTriage.signaturesPhase
  split
  · rfl
  · split
    · rfl
    · rfl

theorem analysisPhase_iocs (r : HatchingTriage.Report) :
    (HatchingTriage.analysisPhase r).iocs = [] := by
  unfold HatchingTriage.analysisPhase
  split
  · rfl
  · rw [signaturesPhase_iocs, scorePhase_iocs, familyPhase_iocs]
    rfl

theorem extractedPhase_iocs_some (r : HatchingTriage.Report)
    (st : HatchingTriage.Findings) (items : List HatchingTriage.ExtractedItem)
    (hext : r.extracted = some items) (hne : items.isEmpty = false) :
    (HatchingTriage.extractedPhase r st).iocs =
      st.iocs ++
        (HatchingTriage.processExtracted (HatchingTriage.probableNameOf r) items).2 := by
  unfold HatchingTriage.extractedPhase
  split
  · rename_i h
    rw [hext] at h
    cases h
  · rename_i items' h
    rw [hext] at h
    injection h with h2
    subst h2
    rw [if_neg (by rw [hne]; simp)]

theorem extract_info_iocs_contains (o : HatchingTriage.Oracle)
    (cfg : HatchingTriage.Cfg) (tid : String) (r : HatchingTriage.Report)
    (items : List HatchingTriage.ExtractedItem) (x : IOC)
    (hext : r.extracted = some items) (hne : items.isEmpty = false)
    (hx : x ∈ (HatchingTriage.processExtracted (HatchingTriage.probableNameOf r) items).2) :
    x ∈ (HatchingTriage.extract_info o cfg tid r).1.iocs := by
  have hst2 : x ∈ (HatchingTriage.extractedPhase r (HatchingTriage.analysisPhase r)).iocs := by
    rw [extractedPhase_iocs_some r _ items hext hne]
    exact List.mem_append_right _ hx
  unfold HatchingTriage.extract_info
  split
  · exact hst2
  · split
    · exact hst2
    · exact processTasks_iocs_mono o cfg tid _ _ x hst2

/-- C9: when the analysis section yields no family names the initial
`probable_name = ""` survives, and `"".split(",") == [""]`, so every
`c2` value of the `extracted` section is emitted as an IOC whose tag
list is exactly `["c2", ""]` — the merged-phase IOC list is precisely
one such IOC per `c2` value, and each of them reaches the final IOC
findings of `extract_info`. -/
theorem c2_ioc_empty_tag (o : HatchingTriage.Oracle) (cfg : HatchingTriage.Cfg)
    (tid : String) (r : HatchingTriage.Report)
    (items : List HatchingTriage.ExtractedItem) (v : String)
    (hpn : HatchingTriage.probableNameOf r = "")
    (hext : r.extracted = some items) (hne : items.isEmpty = false)
    (hv : v ∈ items.flatMap HatchingTriage.itemC2s) :
    (HatchingTriage.processExtracted (HatchingTriage.probableNameOf r) items).2 =
      (items.flatMap HatchingTriage.itemC2s).map (fun w => (⟨w, ["c2", ""]⟩ : IOC)) ∧
    (⟨v, ["c2", ""]⟩ : IOC) ∈ (HatchingTriage.extract_info o cfg tid r).1.iocs := by
  have heq : (HatchingTriage.processExtracted (HatchingTriage.probableNameOf r) items).2 =
      (items.flatMap HatchingTriage.itemC2s).map (fun w => (⟨w, ["c2", ""]⟩ : IOC)) := by
    rw [hpn]
    show (items.foldl (HatchingTriage.processExtractedItem "") ([], [])).2 = _
    rw [processExtracted_go_iocs "" items ([], [])]
    simp only [show pySplit ',' "" = [""] from by decide]
    rfl
  refine ⟨heq, ?_⟩
  apply extract_info_iocs_contains o cfg tid r items _ hext hne
  rw [heq]
  exact List.mem_map_of_mem _ hv

theorem c2_ioc_empty_tag_witness :
    HatchingTriage.probableNameOf
        ⟨none, none, some [⟨some [("c2", .list ["10.0.0.1:80"])], none, none⟩], none⟩ = "" ∧
    (⟨none, none, some [⟨some [("c2", .list ["10.0.0.1:80"])], none, none⟩], none⟩ :
        HatchingTriage.Report).extracted =
      some [⟨some [("c2", .list ["10.0.0.1:80"])], none, none⟩] ∧
    ([(⟨some [("c2", .list ["10.0.0.1:80"])], none, none⟩ :
        HatchingTriage.ExtractedItem)]).isEmpty = false ∧
    "10.0.0.1:80" ∈ ([(⟨some [("c2", .list ["10.0.0.1:80"])], none, none⟩ :
        HatchingTriage.ExtractedItem)]).flatMap HatchingTriage.itemC2s ∧
    ((HatchingTriage.processExtracted
        (HatchingTriage.probableNameOf
          ⟨none, none, some [⟨some [("c2", .list ["10.0.0.1:80"])], none, none⟩], none⟩)
        [⟨some [("c2", .list ["10.0.0.1:80"])], none, none⟩]).2 =
      (([(⟨some [("c2", .list ["10.0.0.1:80"])], none, none⟩ :
          HatchingTriage.ExtractedItem)]).flatMap HatchingTriage.itemC2s).map
        (fun w => (⟨w, ["c2", ""]⟩ : IOC)) ∧
    (⟨"10.0.0.1:80", ["c2", ""]⟩ : IOC) ∈
      (HatchingTriage.extract_info HatchingTriage.exOracle HatchingTriage.exCfg "tid"
        ⟨none, none, some [⟨some [("c2", .list ["10.0.0.1:80"])], none, none⟩], none⟩).1.iocs) :=
  ⟨by decide, by decide, by decide, by decide,
    c2_ioc_empty_tag HatchingTriage.exOracle HatchingTriage.exCfg "tid"
      ⟨none, none, some [⟨some [("c2", .list ["10.0.0.1:80"])], none, none⟩], none⟩
      [⟨some [("c2", .list ["10.0.0.1:80"])], none, none⟩] "10.0.0.1:80"
      (by decide) (by decide) (by decide) (by decide)⟩

/-- C2: a dedup search that SUCCEEDS with an empty result list runs the
`for item in response:` loop zero times — no exception reaches the bare
`except:`, so `submit_file` is never called and no task id is adopted
(first two conjuncts, one per module).  Submission is only reached when
iterating the response raises (Hatching Triage) or the parsed response
lacks the `results` key (UnpacMe) — last two conjuncts.  This
contradicts the documented intent (the handler logs "No reports found.
Submitting file."): an empty result should fall through to submission. -/
theorem sandbox_search_empty_no_submit :
    HatchingTriage.search_file HatchingTriage.exOracle ⟨none, 0, []⟩ =
      (⟨none, 0, []⟩, none) ∧
    UnpacMe.search_file UnpacMe.exOracle ⟨none, 0, []⟩ =
      (⟨none, 0, []⟩, none) ∧
    (HatchingTriage.search_file
        { HatchingTriage.exOracle with searchIterErr := some (.other "boom") }
        ⟨none, 0, []⟩).1.submitFileCalls = 1 ∧
    (UnpacMe.search_file { UnpacMe.exOracle with searchCall := .ok none }
        ⟨none, 0, []⟩).1.submitFileCalls = 1 := by
  refine ⟨?_, ?_, ?_, ?_⟩ <;> decide

/-- C6 (counterexample): an archive with 2 members against
`maximum_extracted_files = 1` registers nothing — but the member listing
is NOT reported either: `results['files']` is the empty list, because
`namelist` is only populated inside the `if should_extract:` branch. -/
theorem extractpatool_listing_counterexample :
    (ExtractPatool.each (.ok ["a", "b"]) ⟨1, 1⟩).registered = [] ∧
    (ExtractPatool.each (.ok ["a", "b"]) ⟨1, 1⟩).files = [] ∧
    (ExtractPatool.each (.ok ["a", "b"]) ⟨1, 1⟩).files ≠ ["a", "b"] := by
  refine ⟨?_, ?_, ?_⟩ <;> decide

/-- C6 (amended): when the member count exceeds
`maximum_extracted_files`, no member is registered as a derived file and
the result's `files` list is empty (member names are only collected when
extraction proceeds); the call still returns `True`. -/
theorem extractpatool_over_limit_no_files (members : List String)
    (cfg : ExtractPatool.Cfg)
    (h : cfg.maximum_extracted_files < (members.length : Int)) :
    (ExtractPatool.each (.ok members) cfg).registered = [] ∧
    (ExtractPatool.each (.ok members) cfg).files = [] ∧
    (ExtractPatool.each (.ok members) cfg).retval = true := by
  unfold ExtractPatool.each
  dsimp only
  rw [if_neg (show ¬ ((members.length : Int) ≤ cfg.maximum_extracted_files) by omega)]
  exact ⟨rfl, rfl, rfl⟩

theorem extractpatool_over_limit_no_files_witness :
    ((⟨1, 1⟩ : ExtractPatool.Cfg).maximum_extracted_files <
        ((["a", "b"] : List String).length : Int)) ∧
    ((ExtractPatool.each (.ok ["a", "b"]) ⟨1, 1⟩).registered = [] ∧
      (ExtractPatool.each (.ok ["a", "b"]) ⟨1, 1⟩).files = [] ∧
      (ExtractPatool.each (.ok ["a", "b"]) ⟨1, 1⟩).retval = true) :=
  ⟨by decide, extractpatool_over_limit_no_files ["a", "b"] ⟨1, 1⟩ (by decide)⟩

/-- C5: for every oracle, configuration and declared type, and hence for
every exception raised anywhere inside the `try` body of the analyze
flow, `each_with_type` of either sandbox module catches the exception at
the boundary, logs it, and still returns `True`; the caught exception's
message always appears in the debug log. -/
theorem each_with_type_always_true :
    (∀ (o : HatchingTriage.Oracle) (cfg : HatchingTriage.Cfg) (ft : String),
      (HatchingTriage.each_with_type o cfg ft).retval = true ∧
      ∀ e, (HatchingTriage.each_with_type o cfg ft).caught = some e →
        pyStr e ∈ (HatchingTriage.each_with_type o cfg ft).logs) ∧
    (∀ (o : UnpacMe.Oracle) (cfg : UnpacMe.Cfg) (ft : String),
      (UnpacMe.each_with_type o cfg ft).retval = true ∧
      ∀ e, (UnpacMe.each_with_type o cfg ft).caught = some e →
        pyStr e ∈ (UnpacMe.each_with_type o cfg ft).logs) := by
  constructor
  · intro o cfg ft
    refine ⟨rfl, ?_⟩
    intro e he
    have he' : (HatchingTriage.runBody o cfg ft).err = some e := he
    show pyStr e ∈ (HatchingTriage.runBody o cfg ft).pipe.logs ++
      (match (HatchingTriage.runBody o cfg ft).err with
        | some e' => [pyStr e'] | none => [])
    rw [he']
    exact List.mem_append_right _ (List.mem_singleton_self _)
  · intro o cfg ft
    refine ⟨rfl, ?_⟩
    intro e he
    have he' : (UnpacMe.runBody o cfg ft).err = some e := he
    show pyStr e ∈ (UnpacMe.runBody o cfg ft).pipe.logs ++
      (match (UnpacMe.runBody o cfg ft).err with
        | some e' => [pyStr e'] | none => [])
    rw [he']
    exact List.mem_append_right _ (List.mem_singleton_self _)

theorem each_with_type_always_true_witness :
    ((HatchingTriage.each_with_type
        { HatchingTriage.exOracle with submitFile := .error (.other "boom") }
        { HatchingTriage.exCfg with check_existing := false }
        "executable").retval = true ∧
      pyStr (.other "boom") ∈
        (HatchingTriage.each_with_type
          { HatchingTriage.exOracle with submitFile := .error (.other "boom") }
          { HatchingTriage.exCfg with check_existing := false }
          "executable").logs) ∧
    ((UnpacMe.each_with_type
        { UnpacMe.exOracle with submitFile := .error (.other "boom") }
        { UnpacMe.exCfg with check_existing := false }
        "executable").retval = true ∧
      pyStr (.other "boom") ∈
        (UnpacMe.each_with_type
          { UnpacMe.exOracle with submitFile := .error (.other "boom") }
          { UnpacMe.exCfg with check_existing := false }
          "executable").logs) :=
  ⟨⟨(each_with_type_always_true.1 _ _ _).1,
    (each_with_type_always_true.1 _ _ _).2 (.other "boom") (by decide)⟩,
   ⟨(each_with_type_always_true.2 _ _ _).1,
    (each_with_type_always_true.2 _ _ _).2 (.other "boom") (by decide)⟩⟩

theorem ht_runBody_url_iff (o : HatchingTriage.Oracle) (cfg : HatchingTriage.Cfg)
    (ft : String) :
    ((HatchingTriage.runBody o cfg ft).err = none ↔
      ((HatchingTriage.runBody o cfg ft).url).isSome) ∧
    ((HatchingTriage.runBody o cfg ft).err = none →
      ∃ t, (HatchingTriage.runBody o cfg ft).pipe.task_id = some t ∧
        (HatchingTriage.runBody o cfg ft).url = some (urljoin cfg.web_endpoint t)) := by
  unfold HatchingTriage.runBody
  dsimp only
  split
  · simp
  · split
    · simp
    · split
      · simp
      · split
        · simp
        · rename_i t heq
          refine ⟨by simp, fun _ => ⟨t, ?_, rfl⟩⟩
          exact heq

theorem um_runBody_url_iff (o : UnpacMe.Oracle) (cfg : UnpacMe.Cfg)
    (ft : String) :
    ((UnpacMe.runBody o cfg ft).err = none ↔
      ((UnpacMe.runBody o cfg ft).url).isSome) ∧
    ((UnpacMe.runBody o cfg ft).err = none →
      ∃ t, (UnpacMe.runBody o cfg ft).pipe.task_id = some t ∧
        (UnpacMe.runBody o cfg ft).url = some (urljoin cfg.web_endpoint t)) := by
  unfold UnpacMe.runBody
  dsimp only
  split
  · simp
  · split
    · simp
    · split
      · simp
      · split
        · simp
        · rename_i t heq
          refine ⟨by simp, fun _ => ⟨t, ?_, rfl⟩⟩
          exact heq

/-- C8 (amended): the result carries the human-navigable report URL
(web endpoint joined with the task handle) exactly on invocations where
every stage succeeded; when submission, polling or report processing
raises, the `URL` key is never reached and stays absent.  (Both sandbox
modules.) -/
theorem report_url_iff_success :
    (∀ (o : HatchingTriage.Oracle) (cfg : HatchingTriage.Cfg) (ft : String),
      ((HatchingTriage.each_with_type o cfg ft).caught = none ↔
        ((HatchingTriage.each_with_type o cfg ft).url).isSome) ∧
      ((HatchingTriage.each_with_type o cfg ft).caught = none →
        ∃ t, (HatchingTriage.each_with_type o cfg ft).task_id = some t ∧
          (HatchingTriage.each_with_type o cfg ft).url =
            some (urljoin cfg.web_endpoint t))) ∧
    (∀ (o : UnpacMe.Oracle) (cfg : UnpacMe.Cfg) (ft : String),
      ((UnpacMe.each_with_type o cfg ft).caught = none ↔
        ((UnpacMe.each_with_type o cfg ft).url).isSome) ∧
      ((UnpacMe.each_with_type o cfg ft).caught = none →
        ∃ t, (UnpacMe.each_with_type o cfg ft).task_id = some t ∧
          (UnpacMe.each_with_type o cfg ft).url =
            some (urljoin cfg.web_endpoint t))) :=
  ⟨fun o cfg ft => ht_runBody_url_iff o cfg ft,
   fun o cfg ft => um_runBody_url_iff o cfg ft⟩

/-- C8 (counterexample): on an invocation whose submission stage fails,
the result of either module contains no report URL at all — refuting
"the result always contains a report URL, including invocations where an
earlier stage failed". -/
theorem report_url_absent_on_failure :
    (HatchingTriage.each_with_type
        { HatchingTriage.exOracle with submitFile := .error (.other "boom") }
        { HatchingTriage.exCfg with check_existing := false }
        "executable").url = none ∧
    (UnpacMe.each_with_type
        { UnpacMe.exOracle with submitFile := .error (.other "boom") }
        { UnpacMe.exCfg with check_existing := false }
        "executable").url = none := by
  refine ⟨?_, ?_⟩ <;> decide

theorem report_url_iff_success_witness :
    ((HatchingTriage.each_with_type
        { HatchingTriage.exOracle with
            submitFile := .ok "id1"
            statuses := fun _ => "reported"
            overview := .ok ⟨none, none, none, none⟩ }
        { HatchingTriage.exCfg with check_existing := false }
        "executable").caught = none ∧
      ((HatchingTriage.each_with_type
        { HatchingTriage.exOracle with
            submitFile := .ok "id1"
            statuses := fun _ => "reported"
            overview := .ok ⟨none, none, none, none⟩ }
        { HatchingTriage.exCfg with check_existing := false }
        "executable").url).isSome) ∧
    ((UnpacMe.each_with_type
        { UnpacMe.exOracle with
            submitFile := .ok "id1"
            statuses := fun _ => "complete"
            resultsFetch := .ok ⟨none⟩ }
        { UnpacMe.exCfg with check_existing := false }
        "executable").caught = none ∧
      ((UnpacMe.each_with_type
        { UnpacMe.exOracle with
            submitFile := .ok "id1"
            statuses := fun _ => "complete"
            resultsFetch := .ok ⟨none⟩ }
        { UnpacMe.exCfg with check_existing := false }
        "executable").url).isSome) :=
  ⟨⟨by decide, ((report_url_iff_success.1 _ _ _).1).mp (by decide)⟩,
   ⟨by decide, ((report_url_iff_success.2 _ _ _).1).mp (by decide)⟩⟩

theorem ht_runBody_timeout (o : HatchingTriage.Oracle) (cfg : HatchingTriage.Cfg)
    (ft : String) (tid : String) (hft : ¬ ft = "url")
    (hce : cfg.check_existing = false) (hsub : o.submitFile = .ok tid)
    (ht : 0 < cfg.wait_timeout) (hterm : ∀ n, o.statuses n ≠ "reported") :
    HatchingTriage.runBody o cfg ft =
      ⟨⟨some tid, 1, []⟩, HatchingTriage.emptyFindings, none,
        some (.moduleExecutionError "could not get report before timeout.")⟩ := by
  have hw := wait_for_analysis_never_term (HatchingTriage.checkOf o (some tid))
    o.statuses "reported" cfg.wait_timeout cfg.wait_step (fun n => rfl) hterm ht
  unfold HatchingTriage.runBody
  dsimp only
  rw [if_neg hft, if_neg (by rw [hce]; simp)]
  unfold HatchingTriage.submit_file
  rw [hsub]
  dsimp only
  rw [hw]

theorem um_runBody_timeout (o : UnpacMe.Oracle) (cfg : UnpacMe.Cfg)
    (ft : String) (tid : String) (hft : ft = "executable")
    (hce : cfg.check_existing = false) (hsub : o.submitFile = .ok tid)
    (ht : 0 < cfg.wait_timeout) (hterm : ∀ n, o.statuses n ≠ "complete") :
    UnpacMe.runBody o cfg ft =
      ⟨⟨some tid, 1, []⟩, some o.fileSha256, UnpacMe.emptyFindings, none,
        some (.moduleExecutionError "could not get report before timeout.")⟩ := by
  have hw := wait_for_analysis_never_term (UnpacMe.checkOf o (some tid))
    o.statuses "complete" cfg.wait_timeout cfg.wait_step (fun n => rfl) hterm ht
  unfold UnpacMe.runBody
  dsimp only
  rw [if_pos hft, if_neg (by rw [hce]; simp)]
  unfold UnpacMe.submit_file
  rw [hsub]
  dsimp only
  rw [hw]

/-- C4 (amended): for positive `wait_timeout` and positive `wait_step`
(the region where the sleep-poll loop is meaningful — a non-positive
`wait_step` would make `time.sleep` raise or the loop spin forever), if
submission succeeded and every status poll within the timeout returns a
non-terminal status, the analyze flow of either module produces no
report-derived findings at all (no score, signatures, IOCs,
extractions, registered files — for UnpacMe no unpacked executables),
and the timeout surfaces as the `ModuleExecutionError` with message
"could not get report before timeout." — the SAME exception class as
the one wrapping report fetch/parse failures, distinguished only by its
message — caught and logged at the analyze boundary. -/
theorem timeout_yields_no_findings :
    (∀ (o : HatchingTriage.Oracle) (cfg : HatchingTriage.Cfg) (ft tid : String),
      ¬ ft = "url" → cfg.check_existing = false → o.submitFile = .ok tid →
      0 < cfg.wait_timeout → 0 < cfg.wait_step →
      (∀ n, o.statuses n ≠ "reported") →
      (HatchingTriage.each_with_type o cfg ft).findings = HatchingTriage.emptyFindings ∧
      (HatchingTriage.each_with_type o cfg ft).caught =
        some (.moduleExecutionError "could not get report before timeout.")) ∧
    (∀ (o : UnpacMe.Oracle) (cfg : UnpacMe.Cfg) (ft tid : String),
      ft = "executable" → cfg.check_existing = false → o.submitFile = .ok tid →
      0 < cfg.wait_timeout → 0 < cfg.wait_step →
      (∀ n, o.statuses n ≠ "complete") →
      (UnpacMe.each_with_type o cfg ft).findings = UnpacMe.emptyFindings ∧
      (UnpacMe.each_with_type o cfg ft).caught =
        some (.moduleExecutionError "could not get report before timeout.")) := by
  constructor
  · intro o cfg ft tid hft hce hsub ht _hstep hterm
    have hb := ht_runBody_timeout o cfg ft tid hft hce hsub ht hterm
    constructor
    · show (HatchingTriage.runBody o cfg ft).findings = _
      rw [hb]
    · show (HatchingTriage.runBody o cfg ft).err = _
      rw [hb]
  · intro o cfg ft tid hft hce hsub ht _hstep hterm
    have hb := um_runBody_timeout o cfg ft tid hft hce hsub ht hterm
    constructor
    · show (UnpacMe.runBody o cfg ft).findings = _
      rw [hb]
    · show (UnpacMe.runBody o cfg ft).err = _
      rw [hb]

/-- C4 (counterexample to "distinct error kind"): under never-terminal
polling the caught exception is `ModuleExecutionError('could not get
report before timeout.')`, and on a report-fetch failure the caught
exception is `ModuleExecutionError('Error encountered while processing
report:...')` — the SAME exception class (`errClass` agrees), so the
timeout is not a distinct error kind from the report-stage
ExecutionError. -/
theorem timeout_error_kind_counterexample :
    (HatchingTriage.each_with_type
        { HatchingTriage.exOracle with submitFile := .ok "id1" }
        { HatchingTriage.exCfg with
            check_existing := false
            wait_timeout := 3
            wait_step := 2 }
        "executable").caught =
      some (.moduleExecutionError "could not get report before timeout.") ∧
    (HatchingTriage.each_with_type
        { HatchingTriage.exOracle with
            submitFile := .ok "id1"
            statuses := fun _ => "reported"
            overview := .error (.other "boom") }
        { HatchingTriage.exCfg with check_existing := false }
        "executable").caught =
      some (.moduleExecutionError "Error encountered while processing report:\nboom") ∧
    errClass (.moduleExecutionError "could not get report before timeout.") =
      errClass (.moduleExecutionError "Error encountered while processing report:\nboom") := by
  refine ⟨?_, ?_, ?_⟩ <;> decide

theorem timeout_yields_no_findings_witness :
    ((HatchingTriage.each_with_type
        { HatchingTriage.exOracle with submitFile := .ok "id1" }
        { HatchingTriage.exCfg with
            check_existing := false
            wait_timeout := 3
            wait_step := 2 }
        "executable").findings = HatchingTriage.emptyFindings ∧
      (HatchingTriage.each_with_type
        { HatchingTriage.exOracle with submitFile := .ok "id1" }
        { HatchingTriage.exCfg with
            check_existing := false
            wait_timeout := 3
            wait_step := 2 }
        "executable").caught =
        some (.moduleExecutionError "could not get report before timeout.")) ∧
    ((UnpacMe.each_with_type
        { UnpacMe.exOracle with submitFile := .ok "id1" }
        { UnpacMe.exCfg with
            check_existing := false
            wait_timeout := 3
            wait_step := 2 }
        "executable").findings = UnpacMe.emptyFindings ∧
      (UnpacMe.each_with_type
        { UnpacMe.exOracle with submitFile := .ok "id1" }
        { UnpacMe.exCfg with
            check_existing := false
            wait_timeout := 3
            wait_step := 2 }
        "executable").caught =
        some (.moduleExecutionError "could not get report before timeout.")) :=
  ⟨timeout_yields_no_findings.1
      { HatchingTriage.exOracle with submitFile := .ok "id1" }
      { HatchingTriage.exCfg with
          check_existing := false
          wait_timeout := 3
          wait_step := 2 }
      "executable" "id1" (by decide) rfl rfl (by decide) (by decide)
      (fun n => show ("pending" : String) ≠ "reported" by decide),
   timeout_yields_no_findings.2
      { UnpacMe.exOracle with submitFile := .ok "id1" }
      { UnpacMe.exCfg with
          check_existing := false
          wait_timeout := 3
          wait_step := 2 }
      "executable" "id1" rfl rfl rfl (by decide) (by decide)
      (fun n => show ("pending" : String) ≠ "complete" by decide)⟩
